import Mathlib

/-!
Shallow embedding of `src/RenderSystems/Vulkan/src/OgreVulkanProgram.cpp`
(class `Ogre::VulkanProgram` and `Ogre::VulkanDescBindingRange`).

Modelling conventions:
* C++ strings are `List Char`; `std::string::find` / `substr` / C `atoi` are
  embedded below (`strFind`, `charFind`, `substrL`, `atoi`), with
  `std::string::npos` rendered as `Option.none`.
* Machine integers are `Nat`/`Int`; the one place where 16-bit wraparound can
  matter (`VulkanDescBindingRange::merge`'s `idx + 1u` truncated to `uint16`)
  carries an explicit `% 65536`.
* The external libraries (glslang, SPIRV-Reflect, the Vulkan driver) are not
  part of this repository; their results are supplied by a deterministic
  `Oracle` record of functions of the SPIR-V words.  Logging is I/O and is not
  modelled; `OGRE_EXCEPT` fatal errors are `Except.error` values of `PErr`.
* A few small helpers of this repository live outside the provided source file
  (headers / base classes); each such definition carries a doc comment
  starting with `Modelled from the spec:`.
-/
/-- Embedding of the prefix test used by `std::string::find`: does `pat`
occur at the head of `s`? -/
def listStartsWith : List Char → List Char → Bool
  | [], _ => true
  | _ :: _, [] => false
  | p :: ps, c :: cs => p == c && listStartsWith ps cs

/-- Auxiliary scan for `strFind`: position (relative, starting at `i`) of the
first occurrence of `pat` in the remaining characters. -/
def strFindAux (pat : List Char) : List Char → Nat → Option Nat
  | [], _ => none
  | c :: rest, i =>
    if listStartsWith pat (c :: rest) then some i else strFindAux pat rest (i + 1)

/-- Embedding of `std::string::find( pat, fromPos )`; `none` is `npos`. -/
def strFind (s pat : List Char) (fromPos : Nat) : Option Nat :=
  (strFindAux pat (s.drop fromPos) 0).map (· + fromPos)

/-- Auxiliary scan for `charFind`. -/
def charFindAux (ch : Char) : List Char → Nat → Option Nat
  | [], _ => none
  | c :: rest, i => if c == ch then some i else charFindAux ch rest (i + 1)

/-- Embedding of `std::string::find( ch, fromPos )` for a single character. -/
def charFind (s : List Char) (ch : Char) (fromPos : Nat) : Option Nat :=
  (charFindAux ch (s.drop fromPos) 0).map (· + fromPos)

/-- Embedding of `std::string::substr( pos, len )`. -/
def substrL (s : List Char) (pos len : Nat) : List Char :=
  (s.drop pos).take len

/-- `std::min` of two positions where `none` is `npos` (largest value). -/
def minOpt : Option Nat → Option Nat → Option Nat
  | none, b => b
  | some a, none => some a
  | some a, some b => some (min a b)

/-- Decimal digit value of a character (C's `isdigit` test plus `c - '0'`),
`none` for non-digits. -/
def digVal (c : Char) : Option Nat :=
  if '0' ≤ c ∧ c ≤ '9' then some (c.toNat - 48) else none

/-- Digit-accumulation loop of C `atoi`. -/
def atoiDigits : List Char → Nat → Nat
  | [], acc => acc
  | c :: rest, acc =>
    match digVal c with
    | some d => atoiDigits rest (acc * 10 + d)
    | none => acc

/-- C whitespace as skipped by `atoi`. -/
def isAtoiWs (c : Char) : Bool :=
  c == ' ' || c == '\t' || c == '\n' || c == '\r'

/-- Embedding of C `atoi`: skip whitespace, optional sign, leading digits
(overflow is undefined behaviour in C and is not modelled — values stay
exact). -/
def atoi (s : List Char) : Int :=
  match s.dropWhile isAtoiWs with
  | '-' :: rest => -(atoiDigits rest 0 : Int)
  | '+' :: rest => (atoiDigits rest 0 : Int)
  | rest => (atoiDigits rest 0 : Int)

/-- Modelled from the spec: `alignMemory( size, alignment )` (declared in
OgreCommon.h, which is not among the provided sources) rounds `size` up to the
next multiple of `alignment` ("alignment-padded"). -/
def alignMemory (size alignment : Nat) : Nat :=
  ((size + alignment - 1) / alignment) * alignment

/-- `Ogre::VulkanDescBindingRange`: the half-open slot range `[start, end)`
recorded per (descriptor set, binding-type letter) cell.  The C++ field `end`
is a Lean keyword and is rendered `end_`. -/
structure VulkanDescBindingRange where
  start : Nat
  end_ : Nat
deriving DecidableEq

/-- The default constructor: `start = std::numeric_limits<uint16>::max()`
(= 65535), `end = 0`. -/
def VulkanDescBindingRange.init : VulkanDescBindingRange :=
  { start := 65535, end_ := 0 }

/-- `VulkanDescBindingRange::merge( idx )`: `start = min(idx, start)`,
`end = max(uint16(idx + 1u), end)`; the truncation of `idx + 1u` to `uint16`
is the explicit `% 65536`. -/
def VulkanDescBindingRange.merge (r : VulkanDescBindingRange) (idx : Nat) :
    VulkanDescBindingRange :=
  { start := min idx r.start, end_ := max ((idx + 1) % 65536) r.end_ }

/-- Modelled from the spec: `OGRE_VULKAN_MAX_NUM_BOUND_DESCRIPTOR_SETS`
(defined in a header that is not among the provided sources); the spec's
example has "maximum supported set count is 4". -/
def OGRE_VULKAN_MAX_NUM_BOUND_DESCRIPTOR_SETS : Nat := 4

/-- The `bufferTypes` letter alphabet `"s tuT BU"` of
`parseNumBindingsFromSource` (spaces are placeholders for unused letters). -/
def bufferTypes : List Char := ['s', ' ', 't', 'u', 'T', ' ', 'B', 'U']

/-- `VulkanDescBindingTypes::NumDescBindingTypes` — the number of binding-type
columns, matching the `bufferTypes` alphabet length. -/
def NumDescBindingTypes : Nat := 8

/-- The per-set / per-type grid `mDescBindingRanges`. -/
abbrev DescBindingTable := List (List VulkanDescBindingRange)

/-- The freshly reset table (every cell default-constructed). -/
def initDescBindingTable : DescBindingTable :=
  List.replicate OGRE_VULKAN_MAX_NUM_BOUND_DESCRIPTOR_SETS
    (List.replicate NumDescBindingTypes VulkanDescBindingRange.init)

/-- In-place update of one list entry (array element assignment). -/
def modifyAt (f : α → α) : Nat → List α → List α
  | _, [] => []
  | 0, a :: as => f a :: as
  | n + 1, a :: as => a :: modifyAt f n as

/-- `mDescBindingRanges[iSetNum][letterIdx].merge( uint16( buffIdx ) )`. -/
def tableMerge (t : DescBindingTable) (setIdx letterIdx slot : Nat) :
    DescBindingTable :=
  modifyAt (fun row => modifyAt (fun r => r.merge slot) letterIdx row) setIdx t

/-- `c_ogreSetKeyword = "ogre_set"`. -/
def c_ogreSetKeyword : List Char := ['o', 'g', 'r', 'e', '_', 's', 'e', 't']

/-- `c_ogreTypeKeyword = "ogre_"`. -/
def c_ogreTypeKeyword : List Char := ['o', 'g', 'r', 'e', '_']

/-- Result of `parseNumBindingsFromSource`: the binding-range table and the
`mCompileError` flag (the caller, `compile`, resets the flag to `false` just
before parsing, and the parser only ever sets it). -/
structure ParseOut where
  ranges : DescBindingTable
  compileError : Bool
deriving DecidableEq

/-- The `while( startPos != String::npos )` loop of
`parseNumBindingsFromSource`, with explicit fuel.  Each iteration moves
`startPos` past the current line's `"ogre_set"` occurrence (the next search
starts at the end-of-line position, which is at least 8 characters further),
so `src.length + 1` units of fuel always suffice; the fuel-exhausted branch is
unreachable from `parseNumBindingsFromSource`. -/
def parseLoop (src : List Char) : Nat → DescBindingTable → Option Nat → ParseOut
  | 0, tbl, _ => ⟨tbl, false⟩
  | _ + 1, tbl, none => ⟨tbl, false⟩
  | fuel + 1, tbl, some startPos =>
    let pos := startPos + c_ogreSetKeyword.length
    let eolMarkerPos := charFind src '\n' pos
    let endPos0 := charFind src ',' pos
    let endPos1 := charFind src ')' pos
    match minOpt endPos0 endPos1 with
    | none => ⟨tbl, true⟩
    | some ep =>
      if (match eolMarkerPos with
          | some e => decide (e ≤ ep)
          | none => false) then ⟨tbl, true⟩
      else
        let setNumStr := substrL src pos (ep - pos)
        let iSetNum : Int := atoi setNumStr
        if iSetNum < 0 ∨ (OGRE_VULKAN_MAX_NUM_BOUND_DESCRIPTOR_SETS : Int) ≤ iSetNum then
          ⟨tbl, true⟩
        else
          let lineStr :=
            match eolMarkerPos with
            | some e => substrL src pos (e - pos)
            | none => src.drop pos
          match strFind lineStr c_ogreTypeKeyword 0 with
          | none => ⟨tbl, true⟩
          | some typeStartPos =>
            let typePos := typeStartPos + c_ogreTypeKeyword.length
            if lineStr.length - 1 ≤ typePos then ⟨tbl, true⟩
            else
              let typeLetter := lineStr.getD typePos ' '
              let letterIdx := bufferTypes.indexOf typeLetter
              if NumDescBindingTypes ≤ letterIdx ∨ typeLetter = ' ' then ⟨tbl, true⟩
              else
                let buffIdx : Int := atoi (lineStr.drop (typePos + 1))
                if buffIdx < 0 ∨ (65535 : Int) ≤ buffIdx then ⟨tbl, true⟩
                else
                  let tbl := tableMerge tbl iSetNum.toNat letterIdx buffIdx.toNat
                  let next :=
                    match eolMarkerPos with
                    | some e => strFind src c_ogreSetKeyword e
                    | none => none
                  parseLoop src fuel tbl next

/-- `VulkanProgram::parseNumBindingsFromSource`: reset the table, then scan
the source for `"ogre_set"` annotations. -/
def VulkanProgram.parseNumBindingsFromSource (src : List Char) : ParseOut :=
  parseLoop src (src.length + 1) initDescBindingTable (strFind src c_ogreSetKeyword 0)

/-! ### Rendered annotations (for reasoning about the parser) -/
/-- Decimal digit character for `n < 10` (callers always supply `n < 10`;
larger values clamp to `'9'`). -/
def digitChar : Nat → Char
  | 0 => '0'
  | 1 => '1'
  | 2 => '2'
  | 3 => '3'
  | 4 => '4'
  | 5 => '5'
  | 6 => '6'
  | 7 => '7'
  | 8 => '8'
  | _ => '9'

/-- One source-level binding annotation `ogre_set<N>, ogre_<letter><M>`. -/
structure OgreSetAnnotation where
  setIdx : Nat
  typeLetter : Char
  slotIdx : Nat
deriving DecidableEq

/-- The type-tag letters actually accepted by the parser (the non-space
entries of `bufferTypes`). -/
def validTypeLetters : List Char := ['s', 't', 'u', 'T', 'B', 'U']

/-- Canonical one-line rendering of an annotation, e.g.
`ogre_set0, ogre_B0 )` followed by a newline (21 characters). -/
def renderAnno (a : OgreSetAnnotation) : List Char :=
  c_ogreSetKeyword ++ [digitChar a.setIdx, ',', ' '] ++ c_ogreTypeKeyword ++
    [a.typeLetter, digitChar a.slotIdx, ' ', ')', '\n']

/-- Rendering of a list of annotations, one per line. -/
def renderAnnos (l : List OgreSetAnnotation) : List Char :=
  (l.map renderAnno).flatten

/-- The table update one successfully parsed annotation performs. -/
def applyAnno (tbl : DescBindingTable) (a : OgreSetAnnotation) : DescBindingTable :=
  tableMerge tbl a.setIdx (bufferTypes.indexOf a.typeLetter) a.slotIdx

/-! ### Reflection data model (SPIRV-Reflect output consumed by
`buildConstantDefinitions`) -/
/-- The SPIR-V type opcodes relevant to `VulkanMappings::get`. -/
inductive SpvOp
  | typeFloat
  | typeInt
  | typeVector
  | typeMatrix
  | typeStruct
  | typeSampler
  | otherOp
deriving DecidableEq

/-- `Ogre::GpuConstantType` (the constructors reachable from this file). -/
inductive GpuConstantType
  | float1 | float2 | float3 | float4
  | int1 | int2 | int3 | int4
  | uint1 | uint2 | uint3 | uint4
  | matrix2x2 | matrix2x3 | matrix2x4
  | matrix3x2 | matrix3x3 | matrix3x4
  | matrix4x2 | matrix4x3 | matrix4x4
  | sampler1D | sampler2D
  | unknown
deriving DecidableEq

/-- Modelled from the spec: `VulkanMappings::get( SpvOp )`
(OgreVulkanMappings.cpp is not among the provided sources): "map the member's
scalar/vector/matrix shape to the engine's semantic type" — matrix opcodes map
to the generic 4x4 marker that `buildConstantDefinitions` then refines by
row/column count, scalar float/int opcodes to the 1-component types; opcodes
the mapping does not know yield the unknown type. -/
def VulkanMappings.get : SpvOp → GpuConstantType
  | .typeFloat => .float1
  | .typeInt => .int1
  | .typeMatrix => .matrix4x4
  | .typeSampler => .sampler2D
  | .typeVector => .unknown
  | .typeStruct => .unknown
  | .otherOp => .unknown

/-- Modelled from the spec: `GpuConstantDefinition::isFloat()`
(OgreGpuProgramParams.h is not among the provided sources) — the float
category holds the float vectors and all matrices ("float vs. unsigned-int
vs. other-integer"). -/
def GpuConstantType.isFloat : GpuConstantType → Bool
  | .float1 | .float2 | .float3 | .float4 => true
  | .matrix2x2 | .matrix2x3 | .matrix2x4 => true
  | .matrix3x2 | .matrix3x3 | .matrix3x4 => true
  | .matrix4x2 | .matrix4x3 | .matrix4x4 => true
  | _ => false

/-- Modelled from the spec: `GpuConstantDefinition::isUnsignedInt()` — the
unsigned-int category. -/
def GpuConstantType.isUnsignedInt : GpuConstantType → Bool
  | .uint1 | .uint2 | .uint3 | .uint4 => true
  | _ => false

/-- Modelled from the spec: `GpuConstantDefinition::getElementSize( ctype,
padToMultiplesOf4 )` — "element size in 4-byte words"; matrices take
rows × columns words, samplers one word.  `buildConstantDefinitions` always
passes `padToMultiplesOf4 = false`. -/
def GpuConstantDefinition.getElementSize (t : GpuConstantType)
    (padToMultiplesOf4 : Bool) : Nat :=
  let base : Nat :=
    match t with
    | .float1 | .int1 | .uint1 => 1
    | .float2 | .int2 | .uint2 => 2
    | .float3 | .int3 | .uint3 => 3
    | .float4 | .int4 | .uint4 => 4
    | .matrix2x2 => 4
    | .matrix2x3 => 6
    | .matrix2x4 => 8
    | .matrix3x2 => 6
    | .matrix3x3 => 9
    | .matrix3x4 => 12
    | .matrix4x2 => 8
    | .matrix4x3 => 12
    | .matrix4x4 => 16
    | .sampler1D | .sampler2D => 1
    | .unknown => 1
  if padToMultiplesOf4 then ((base + 3) / 4) * 4 else base

/-- `GPV_GLOBAL` variability flag. -/
def GPV_GLOBAL : Nat := 1

/-- `Ogre::GpuConstantDefinition` (the fields this file touches).  The default
constructor leaves `constType` unknown and `variability` global, which is what
the non-block branch of `buildConstantDefinitions` relies on. -/
structure GpuConstantDefinition where
  constType : GpuConstantType := .unknown
  logicalIndex : Nat := 0
  physicalIndex : Nat := 0
  elementSize : Nat := 0
  arraySize : Nat := 1
  variability : Nat := GPV_GLOBAL
deriving DecidableEq

/-- `Ogre::GpuLogicalIndexUse` entries of the logical→physical maps. -/
structure GpuLogicalIndexUse where
  physicalIndex : Nat
  currentSize : Nat
  variability : Nat
deriving DecidableEq

/-- `Ogre::GpuLogicalBufferStruct`: a running buffer size plus the
logical→physical map (`std::map`, so `insert` keeps an existing key). -/
structure GpuLogicalBufferStruct where
  bufferSize : Nat := 0
  map : List (Nat × GpuLogicalIndexUse) := []
deriving DecidableEq

/-- `std::map` / `unordered_map` `insert`: keeps the existing entry when the
key is already present. -/
def assocInsertIfAbsent [DecidableEq κ] (m : List (κ × ν)) (k : κ) (v : ν) :
    List (κ × ν) :=
  match m.lookup k with
  | some _ => m
  | none => m ++ [(k, v)]

/-- `Ogre::VulkanConstantDefinitionBindingParam`. -/
structure VulkanConstantDefinitionBindingParam where
  offset : Nat
  size : Nat
deriving DecidableEq

/-- The mutable parameter-reflection state `buildConstantDefinitions` writes:
the three per-category logical→physical buffers (`mFloatLogicalToPhysical`,
`mUIntLogicalToPhysical`, `mIntLogicalToPhysical`), their mirrored sizes in
`mConstantDefs` (float/uint/intBufferSize), the named-constant map
(`mConstantDefs->map`), `mConstantDefsSorted`, `mConstantsBytesToWrite` and
`mConstantDefsBindingParams`. -/
structure ParamsState where
  floatLogical : GpuLogicalBufferStruct := {}
  uintLogical : GpuLogicalBufferStruct := {}
  intLogical : GpuLogicalBufferStruct := {}
  floatBufferSize : Nat := 0
  uintBufferSize : Nat := 0
  intBufferSize : Nat := 0
  constantDefsMap : List (String × GpuConstantDefinition) := []
  constantDefsSorted : List GpuConstantDefinition := []
  constantsBytesToWrite : Nat := 0
  bindingParams : List (Nat × VulkanConstantDefinitionBindingParam) := []
deriving DecidableEq

/-- `SpvReflectTypeDescription` (the fields this file reads: the opcode, the
`type_flags` bits tested, and `type_name`). -/
structure SpvReflectTypeDescription where
  op : SpvOp
  flagVector : Bool
  flagFloat : Bool
  flagInt : Bool
  flagStruct : Bool
  flagArray : Bool
  typeName : String
deriving DecidableEq

/-- `SpvReflectBlockVariable` for a block member: name, type description,
`numeric.matrix.row_count` / `column_count`, `numeric.vector.component_count`,
`array.stride` (bytes) and `array.dims_count`. -/
structure SpvReflectBlockVariable where
  name : String
  typeDescription : SpvReflectTypeDescription
  matrixRowCount : Nat
  matrixColumnCount : Nat
  vectorComponentCount : Nat
  arrayStride : Nat
  arrayDimsCount : Nat
deriving DecidableEq

/-- The `block` field of a descriptor binding: byte offset, byte size, and
member list (`member_count` is the list length). -/
structure SpvReflectBlock where
  offset : Nat
  size : Nat
  members : List SpvReflectBlockVariable
deriving DecidableEq

/-- `VkDescriptorType` (the constructors this file distinguishes). -/
inductive VkDescriptorType
  | sampler
  | combinedImageSampler
  | uniformTexelBuffer
  | storageTexelBuffer
  | uniformBuffer
  | storageBuffer
  | otherDescriptor
deriving DecidableEq

/-- `SpvReflectDescriptorBinding` (the fields this file reads). -/
structure SpvReflectDescriptorBinding where
  binding : Nat
  descriptorType : VkDescriptorType
  block : SpvReflectBlock
  name : String
  typeName : String
  arrayDimsCount : Nat
deriving DecidableEq

/-- `SpvReflectDescriptorSet`. -/
structure SpvReflectDescriptorSet where
  bindings : List SpvReflectDescriptorBinding
deriving DecidableEq

/-- Modelled from the spec: `OGRE_VULKAN_PARAMETER_SLOT` — "a binding bound at
a single reserved slot number dedicated to scalar/vector/matrix 'loose'
parameters" (the defining header is not among the provided sources; the value
is irrelevant to the theorems, which quantify over binding indices). -/
def OGRE_VULKAN_PARAMETER_SLOT : Nat := 0

/-- The fatal rendering-API errors (`OGRE_EXCEPT`) this file can raise; each
carries the program name where the source message names it. -/
inductive PErr
  | compileFailed (pname : String)
  | reflectFailed (pname : String) (msg : String)
  | invalidComponentCount (which : String)
  | stepRateTooLarge (pname : String)
  | mixedRates (pname : String)
  | missingAttributes
deriving DecidableEq

/-- The three-way physical-buffer placement block that appears verbatim in
both branches of `buildConstantDefinitions` (lines 727–759 and 819–851 of the
source): `physicalIndex` is set to the chosen category buffer's running size,
the logical→physical map gets an entry, the running size advances by
`arraySize * elementSize`, and the size is mirrored into `mConstantDefs`. -/
def ParamsState.placeDef (ps : ParamsState) (d : GpuConstantDefinition) :
    GpuConstantDefinition × ParamsState :=
  if d.constType.isFloat then
    let d := { d with physicalIndex := ps.floatLogical.bufferSize }
    (d, { ps with
      floatLogical :=
        { bufferSize := ps.floatLogical.bufferSize + d.arraySize * d.elementSize
          map := assocInsertIfAbsent ps.floatLogical.map d.logicalIndex
            ⟨d.physicalIndex, d.arraySize * d.elementSize, GPV_GLOBAL⟩ }
      floatBufferSize := ps.floatLogical.bufferSize + d.arraySize * d.elementSize })
  else if d.constType.isUnsignedInt then
    let d := { d with physicalIndex := ps.uintLogical.bufferSize }
    (d, { ps with
      uintLogical :=
        { bufferSize := ps.uintLogical.bufferSize + d.arraySize * d.elementSize
          map := assocInsertIfAbsent ps.uintLogical.map d.logicalIndex
            ⟨d.physicalIndex, d.arraySize * d.elementSize, GPV_GLOBAL⟩ }
      uintBufferSize := ps.uintLogical.bufferSize + d.arraySize * d.elementSize })
  else
    let d := { d with physicalIndex := ps.intLogical.bufferSize }
    (d, { ps with
      intLogical :=
        { bufferSize := ps.intLogical.bufferSize + d.arraySize * d.elementSize
          map := assocInsertIfAbsent ps.intLogical.map d.logicalIndex
            ⟨d.physicalIndex, d.arraySize * d.elementSize, GPV_GLOBAL⟩ }
      intBufferSize := ps.intLogical.bufferSize + d.arraySize * d.elementSize })

/-- Modelled from the spec:
`GpuNamedConstants::generateConstantDefinitionArrayEntries` (a base-class
helper not among the provided sources) inserts derived per-array alias
entries into the name map; modelled as the first-element alias `name[0]`. -/
def generateConstantDefinitionArrayEntries
    (m : List (String × GpuConstantDefinition)) (varName : String)
    (d : GpuConstantDefinition) : List (String × GpuConstantDefinition) :=
  assocInsertIfAbsent m (varName ++ "[0]") d

/-- The tail of the member loop (source lines 710–771): build the definition
for an already shape-refined `constantType`, place it into its category
buffer, and record it in the name map, the sorted list and the byte
high-water mark (which uses the logical offset in this branch). -/
def emitBlockMemberDef (prevSize : Nat) (ps : ParamsState)
    (m : SpvReflectBlockVariable) (constantType : GpuConstantType) : ParamsState :=
  let d0 : GpuConstantDefinition :=
    { constType := constantType
      logicalIndex := prevSize
      physicalIndex := 0
      elementSize :=
        if m.typeDescription.flagArray then m.arrayStride / 4
        else GpuConstantDefinition.getElementSize constantType false
      arraySize := if m.typeDescription.flagArray then m.arrayDimsCount else 1
      variability := GPV_GLOBAL }
  let dps := ps.placeDef d0
  let d := dps.1
  let ps := dps.2
  let ps :=
    if m.arrayDimsCount ≠ 0 then
      { ps with constantDefsMap :=
          generateConstantDefinitionArrayEntries ps.constantDefsMap m.name d }
    else ps
  let ps := { ps with constantDefsMap := assocInsertIfAbsent ps.constantDefsMap m.name d }
  let ps := { ps with constantDefsSorted := ps.constantDefsSorted ++ [d] }
  { ps with
    constantsBytesToWrite :=
      max ps.constantsBytesToWrite (d.logicalIndex + d.arraySize * d.elementSize * 4) }

/-- The matrix-shape refinement chain of the member loop (source lines
629–652): select among the nine 2x2…4x4 shapes by
`numeric.matrix.row_count` / `column_count`; shapes outside that grid leave
the op-mapped 4x4 marker unchanged. -/
def refineMatrixType (rowCount columnCount : Nat) (fallback : GpuConstantType) :
    GpuConstantType :=
  if rowCount = 2 ∧ columnCount = 2 then GpuConstantType.matrix2x2
  else if rowCount = 2 ∧ columnCount = 3 then GpuConstantType.matrix2x3
  else if rowCount = 2 ∧ columnCount = 4 then GpuConstantType.matrix2x4
  else if rowCount = 3 ∧ columnCount = 2 then GpuConstantType.matrix3x2
  else if rowCount = 3 ∧ columnCount = 3 then GpuConstantType.matrix3x3
  else if rowCount = 3 ∧ columnCount = 4 then GpuConstantType.matrix3x4
  else if rowCount = 4 ∧ columnCount = 2 then GpuConstantType.matrix4x2
  else if rowCount = 4 ∧ columnCount = 3 then GpuConstantType.matrix4x3
  else if rowCount = 4 ∧ columnCount = 4 then GpuConstantType.matrix4x4
  else fallback

/-- One member of the parameter-slot uniform block (source lines 623–772):
refine the op-mapped type by matrix shape or vector component count, skip
struct members (`continue`), and emit one definition; float/int vectors with
a component count outside 1–4 raise the fatal error. -/
def processBlockMember (prevSize : Nat) (ps : ParamsState)
    (m : SpvReflectBlockVariable) : Except PErr ParamsState :=
  let constantType := VulkanMappings.get m.typeDescription.op
  if constantType = .matrix4x4 then
    .ok (emitBlockMemberDef prevSize ps m
      (refineMatrixType m.matrixRowCount m.matrixColumnCount constantType))
  else if m.typeDescription.flagVector then
    if m.typeDescription.flagFloat then
      match m.vectorComponentCount with
      | 1 => .ok (emitBlockMemberDef prevSize ps m .float1)
      | 2 => .ok (emitBlockMemberDef prevSize ps m .float2)
      | 3 => .ok (emitBlockMemberDef prevSize ps m .float3)
      | 4 => .ok (emitBlockMemberDef prevSize ps m .float4)
      | _ => .error (.invalidComponentCount "invalid component count for float vector")
    else if m.typeDescription.flagInt then
      match m.vectorComponentCount with
      | 1 => .ok (emitBlockMemberDef prevSize ps m .int1)
      | 2 => .ok (emitBlockMemberDef prevSize ps m .int2)
      | 3 => .ok (emitBlockMemberDef prevSize ps m .int3)
      | 4 => .ok (emitBlockMemberDef prevSize ps m .int4)
      | _ => .error (.invalidComponentCount "invalid component count for int vector")
    else .ok (emitBlockMemberDef prevSize ps m constantType)
  else if m.typeDescription.flagStruct then .ok ps
  else .ok (emitBlockMemberDef prevSize ps m constantType)

/-- A `VK_DESCRIPTOR_TYPE_UNIFORM_BUFFER` binding at the parameter slot
(source lines 621–791): walk the members, then record the binding parameter;
the alignment-padded accumulation into `prevSize` happens exactly when the
binding index is *absent* from `mConstantDefsBindingParams` (the `find == end`
test at lines 777–783), and the insert keeps an existing entry. -/
def processUniformBufferBinding (uboAlignment : Nat)
    (b : SpvReflectDescriptorBinding) (prevSize : Nat) (ps : ParamsState) :
    Except PErr (Nat × ParamsState) :=
  match b.block.members.foldlM (processBlockMember prevSize) ps with
  | .error e => .error e
  | .ok ps =>
    let bindingParam : VulkanConstantDefinitionBindingParam :=
      ⟨b.block.offset, b.block.size⟩
    let prevSize :=
      if (ps.bindingParams.lookup b.binding).isNone then
        prevSize + alignMemory b.block.size uboAlignment
      else prevSize
    .ok (prevSize,
      { ps with bindingParams :=
          assocInsertIfAbsent ps.bindingParams b.binding bindingParam })

/-- A non-uniform-buffer binding at the parameter slot (source lines
792–893): one resource definition with element size 1 and array size 1, the
byte high-water mark using the *physical* offset in this branch, and
`prevSize` advanced by the definition's word count. -/
def processNonBlockBinding (b : SpvReflectDescriptorBinding) (prevSize : Nat)
    (ps : ParamsState) : Nat × ParamsState :=
  let d0 : GpuConstantDefinition := {}
  let d0 :=
    if b.descriptorType = .sampler then { d0 with constType := .sampler2D }
    else if b.descriptorType = .uniformTexelBuffer then { d0 with constType := .sampler1D }
    else if b.descriptorType = .combinedImageSampler then { d0 with constType := .sampler2D }
    else d0
  let d0 := { d0 with arraySize := 1, logicalIndex := prevSize, elementSize := 1 }
  let dps := ps.placeDef d0
  let d := dps.1
  let ps := dps.2
  let varName := if b.name = "" then b.typeName else b.name
  let ps :=
    if 0 < b.arrayDimsCount then
      { ps with constantDefsMap :=
          generateConstantDefinitionArrayEntries ps.constantDefsMap varName d }
    else ps
  let ps := { ps with constantDefsMap := assocInsertIfAbsent ps.constantDefsMap varName d }
  let ps := { ps with constantDefsSorted := ps.constantDefsSorted ++ [d] }
  let ps := { ps with
    constantsBytesToWrite :=
      max ps.constantsBytesToWrite (d.physicalIndex + d.arraySize * d.elementSize * 4) }
  let bindingParam : VulkanConstantDefinitionBindingParam :=
    ⟨d.logicalIndex, d.arraySize * d.elementSize⟩
  let prevSize := prevSize + bindingParam.size
  (prevSize,
    { ps with bindingParams :=
        assocInsertIfAbsent ps.bindingParams b.binding bindingParam })

/-- One binding of a descriptor set: bindings not at the reserved parameter
slot are skipped (`continue`, line 616). -/
def processBinding (uboAlignment : Nat) (acc : Nat × ParamsState)
    (b : SpvReflectDescriptorBinding) : Except PErr (Nat × ParamsState) :=
  if b.binding ≠ OGRE_VULKAN_PARAMETER_SLOT then .ok acc
  else if b.descriptorType = .uniformBuffer then
    processUniformBufferBinding uboAlignment b acc.1 acc.2
  else .ok (processNonBlockBinding b acc.1 acc.2)

/-- One descriptor set: `prevSize` starts at 0 per set (line 610); the
`numBindings` maximum computed at lines 603–605 is dead code and is omitted. -/
def processDescriptorSet (uboAlignment : Nat) (ps : ParamsState)
    (s : SpvReflectDescriptorSet) : Except PErr ParamsState :=
  match s.bindings.foldlM (processBinding uboAlignment) (0, ps) with
  | .error e => .error e
  | .ok acc => .ok acc.2

/-- `SpvReflectInterfaceVariable` (the fields read by
`gatherVertexInputs`). -/
structure SpvReflectInterfaceVariable where
  location : Nat
  format : Nat
deriving DecidableEq

/-- `VkVertexInputAttributeDescription`. -/
structure VkVertexInputAttributeDescription where
  location : Nat
  binding : Nat
  format : Nat
  offset : Nat
deriving DecidableEq

/-- `EShLanguage` stage kinds. -/
inductive EShLanguage
  | vertexStage
  | fragmentStage
  | geometryStage
  | tessControlStage
  | tessEvaluationStage
  | computeStage
deriving DecidableEq

/-- `Ogre::GpuProgramType`. -/
inductive GpuProgramType
  | vertexProgram
  | fragmentProgram
  | geometryProgram
  | hullProgram
  | domainProgram
  | computeProgram
deriving DecidableEq

/-- `VulkanProgram::getEshLanguage` (source lines 132–147; the trailing
`return EShLangFragment` is unreachable because the switch is total). -/
def VulkanProgram.getEshLanguage : GpuProgramType → EShLanguage
  | .vertexProgram => .vertexStage
  | .fragmentProgram => .fragmentStage
  | .geometryProgram => .geometryStage
  | .hullProgram => .tessControlStage
  | .domainProgram => .tessEvaluationStage
  | .computeProgram => .computeStage

/-- The deterministic model of the external libraries: glslang (parse, link,
intermediate extraction and SPIR-V lowering collapse to one function whose
`none` result is a failure in any of those stages) and SPIRV-Reflect (module
creation plus enumeration, whose `Except.error` is a reflection failure).
All are pure functions of the inputs, matching the spec: "compilation is
deterministic given the same source and device limits". -/
structure Oracle where
  glslangCompile : List Char → EShLanguage → Option (List Nat)
  reflectDescriptorSets : List Nat → Except String (List SpvReflectDescriptorSet)
  reflectInputVariables : List Nat → Except String (List SpvReflectInterfaceVariable)

/-- The immutable identity of a program: `mName`, `mSource`, `mType` and the
device's `minUniformBufferOffsetAlignment` limit (none of which the embedded
functions ever write). -/
structure ProgEnv where
  name : String
  source : List Char
  gpType : GpuProgramType
  minUniformBufferOffsetAlignment : Nat

/-- The mutable state of a `VulkanProgram` touched by the embedded
functions. -/
structure MutState where
  compiled : Bool := false
  compileError : Bool := false
  spirv : List Nat := []
  shaderModule : Option (List Nat) := none
  descBindingRanges : DescBindingTable := initDescBindingTable
  numSystemGenVertexInputs : Nat := 0
  vertexInputs : List VkVertexInputAttributeDescription := []
  params : ParamsState := {}
deriving DecidableEq

/-- `VulkanProgram::buildConstantDefinitions` (source lines 545–900): the
early returns on a compile error or empty SPIR-V, reflection of the
descriptor sets, and the per-set walk. -/
def VulkanProgram.buildConstantDefinitions (o : Oracle) (env : ProgEnv)
    (st : MutState) : Except PErr MutState :=
  if st.compileError then .ok st
  else if st.spirv = [] then .ok st
  else
    match o.reflectDescriptorSets st.spirv with
    | .error msg => .error (.reflectFailed env.name msg)
    | .ok sets =>
      match sets.foldlM
          (processDescriptorSet env.minUniformBufferOffsetAlignment) st.params with
      | .error e => .error e
      | .ok ps => .ok { st with params := ps }

/-- Sorted insertion by input location — the `std::sort( mVertexInputs … ,
SortByVertexInputLocation() )` of `gatherVertexInputs`; locations are unique
by construction (per the spec), so the sorted order is deterministic. -/
def insertByLocation (a : VkVertexInputAttributeDescription) :
    List VkVertexInputAttributeDescription → List VkVertexInputAttributeDescription
  | [] => [a]
  | b :: bs => if a.location < b.location then a :: b :: bs else b :: insertByLocation a bs

/-- Sorting the gathered attribute list by location ascending. -/
def sortByVertexInputLocation (l : List VkVertexInputAttributeDescription) :
    List VkVertexInputAttributeDescription :=
  l.foldr insertByLocation []

/-- `std::numeric_limits<uint32_t>::max()` — the system-generated-input
location sentinel. -/
def UINT32_MAX : Nat := 4294967295

/-- `VulkanProgram::gatherVertexInputs` (source lines 919–975): clear the
derived fields, early-return when there are no input variables, otherwise
record one attribute per variable (binding and offset left 0), count the
sentinel locations as system-generated, and sort by location. -/
def VulkanProgram.gatherVertexInputs (vars : List SpvReflectInterfaceVariable)
    (st : MutState) : MutState :=
  let st := { st with numSystemGenVertexInputs := 0, vertexInputs := [] }
  if vars = [] then st
  else
    let attrs := vars.map fun v =>
      ({ location := v.location, binding := 0, format := v.format, offset := 0 } :
        VkVertexInputAttributeDescription)
    { st with
      numSystemGenVertexInputs := (attrs.filter fun a => a.location = UINT32_MAX).length
      vertexInputs := sortByVertexInputLocation attrs }

/-- `VulkanProgram::compile` (source lines 381–507): reset the flags, run the
annotation parser, run the (oracle-modelled) glslang pipeline unless an
earlier step failed, clear and refill `mSpirv`, set `mCompiled`, raise the
fatal error when requested and compilation failed, create the shader module
exactly when compiled with non-empty SPIR-V, reflect the vertex inputs when
SPIR-V is non-empty, and return `mCompiled`. -/
def VulkanProgram.compile (o : Oracle) (env : ProgEnv) (checkErrors : Bool)
    (st : MutState) : Except PErr (Bool × MutState) :=
  let st := { st with compiled := false, compileError := false }
  let pr := VulkanProgram.parseNumBindingsFromSource env.source
  let st := { st with descBindingRanges := pr.ranges, compileError := pr.compileError }
  let stage := VulkanProgram.getEshLanguage env.gpType
  let glslangResult := if st.compileError then none else o.glslangCompile env.source stage
  let compileError := st.compileError || glslangResult.isNone
  let spirv := if compileError then [] else glslangResult.getD []
  let st := { st with compileError := compileError, spirv := spirv, compiled := !compileError }
  if !st.compiled && checkErrors then .error (.compileFailed env.name)
  else
    let st :=
      if st.compiled && !spirv.isEmpty then { st with shaderModule := some spirv } else st
    if spirv.isEmpty then .ok (st.compiled, st)
    else
      match o.reflectInputVariables spirv with
      | .error msg => .error (.reflectFailed env.name msg)
      | .ok vars => .ok (st.compiled, VulkanProgram.gatherVertexInputs vars st)

/-- `VulkanProgram::unloadHighLevelImpl` (source lines 526–537): clear the
compiled flag, the SPIR-V words, and the shader module, always together. -/
def VulkanProgram.unloadHighLevelImpl (st : MutState) : MutState :=
  { st with compiled := false, spirv := [], shaderModule := none }

/-- Modelled from the spec: the base-class reload path — "recompilation
clears and rebuilds all derived state" / "replaced wholesale on
recompilation".  The resource framework that owns the derived parameter
state (constant definitions, logical→physical maps, vertex inputs, binding
ranges) lives outside this file; this models its clearing before a
recompilation. -/
def clearDerivedState (st : MutState) : MutState :=
  { compiled := st.compiled
    compileError := false
    spirv := st.spirv
    shaderModule := st.shaderModule
    descBindingRanges := initDescBindingTable
    numSystemGenVertexInputs := 0
    vertexInputs := []
    params := {} }

/-- A full reload of an unchanged program: unload (source), clear the derived
state (spec-modelled base-class path), compile with `checkErrors = true` (as
`loadFromSource` does, line 379), then reflect the constant definitions. -/
def VulkanProgram.reload (o : Oracle) (env : ProgEnv) (st : MutState) :
    Except PErr MutState :=
  match VulkanProgram.compile o env true
      (clearDerivedState (VulkanProgram.unloadHighLevelImpl st)) with
  | .error e => .error e
  | .ok bst => VulkanProgram.buildConstantDefinitions o env bst.2

/-! ### Claim C3: physical-buffer placement and disjointness -/
/-- The category (float / unsigned-int / other-integer) choosing among the
three physical parameter buffers. -/
def defCategory (t : GpuConstantType) : Nat :=
  if t.isFloat then 0 else if t.isUnsignedInt then 1 else 2

/-- The running size of the category's buffer. -/
def catSize (ps : ParamsState) (c : Nat) : Nat :=
  if c = 0 then ps.floatLogical.bufferSize
  else if c = 1 then ps.uintLogical.bufferSize
  else ps.intLogical.bufferSize

/-- One past the last word a definition occupies in its physical buffer. -/
def defEnd (d : GpuConstantDefinition) : Nat :=
  d.physicalIndex + d.arraySize * d.elementSize

/-- The buffer-separation invariant: every recorded definition lies below its
category buffer's running size, and same-category definitions are ordered and
disjoint in discovery order. -/
def BufSep (ps : ParamsState) : Prop :=
  (∀ d ∈ ps.constantDefsSorted, defEnd d ≤ catSize ps (defCategory d.constType)) ∧
    ps.constantDefsSorted.Pairwise (fun a b =>
      defCategory a.constType = defCategory b.constType →
        a.physicalIndex ≤ b.physicalIndex ∧ defEnd a ≤ b.physicalIndex)

/-! ### Claim C9: per-member semantic-type selection -/
/-- The spec's matrix-shape mapping (comparison definition for C9, following
the spec's words): "using row/column counts to select among all non-square
matrix shapes (2x2 through 4x4, including rectangular …)"; `none` for a shape
outside that grid. -/
def specMatrixType (r c : Nat) : Option GpuConstantType :=
  if r = 2 ∧ c = 2 then some .matrix2x2
  else if r = 2 ∧ c = 3 then some .matrix2x3
  else if r = 2 ∧ c = 4 then some .matrix2x4
  else if r = 3 ∧ c = 2 then some .matrix3x2
  else if r = 3 ∧ c = 3 then some .matrix3x3
  else if r = 3 ∧ c = 4 then some .matrix3x4
  else if r = 4 ∧ c = 2 then some .matrix4x2
  else if r = 4 ∧ c = 3 then some .matrix4x3
  else if r = 4 ∧ c = 4 then some .matrix4x4
  else none

/-- The spec's float-vector mapping for C9: component counts 1–4 are legal,
anything else is fatal (`none`). -/
def specFloatVectorType (n : Nat) : Option GpuConstantType :=
  if n = 1 then some .float1
  else if n = 2 then some .float2
  else if n = 3 then some .float3
  else if n = 4 then some .float4
  else none

/-- The spec's integer-vector mapping for C9. -/
def specIntVectorType (n : Nat) : Option GpuConstantType :=
  if n = 1 then some .int1
  else if n = 2 then some .int2
  else if n = 3 then some .int3
  else if n = 4 then some .int4
  else none

/-- "`processBlockMember` emits exactly one definition for this member, of
semantic type `t`". -/
def EmitsOne (p : Nat) (ps : ParamsState) (m : SpvReflectBlockVariable)
    (t : GpuConstantType) : Prop :=
  ∃ ps' d, processBlockMember p ps m = .ok ps' ∧
    ps'.constantDefsSorted = ps.constantDefsSorted ++ [d] ∧ d.constType = t

/-! ### Claim C5/C6: getLayoutForPso -/
/-- `Ogre::VertexElementSemantic` (the semantics used by the layout-matching
phase). Modelled from the spec: the enum lives in a header outside src/. -/
inductive VertexElementSemantic
  | position
  | normal
  | diffuse
  | blendIndices
  | blendWeights
  | binormal
  | tangent
  | textureCoordinates
deriving DecidableEq

/-- `Ogre::VertexElementType` (a representative set). Modelled from the spec:
the enum lives in a header outside src/. -/
inductive VertexElementType
  | float1
  | float2
  | float3
  | float4
deriving DecidableEq

/-- `VulkanVaoManager::getAttributeIndexFor` — the fixed semantic→location
table. Modelled from the spec: "texture-coordinate elements consume
successive location slots starting from a fixed texture-coordinate base";
the table itself lives outside src/, so the concrete numbers (injective,
texture-coordinate base 8) are representative. -/
def VulkanVaoManager.getAttributeIndexFor : VertexElementSemantic → Nat
  | .position => 0
  | .normal => 1
  | .diffuse => 2
  | .blendIndices => 3
  | .blendWeights => 4
  | .binormal => 5
  | .tangent => 6
  | .textureCoordinates => 8

/-- `v1::VertexElement::getTypeSize` in bytes. Modelled from the spec
("accumulated per-element byte offset"); the function lives outside src/. -/
def VertexElement.getTypeSize : VertexElementType → Nat
  | .float1 => 4
  | .float2 => 8
  | .float3 => 12
  | .float4 => 16

/-- `VulkanMappings::get( VertexElementType )` — the element-type→`VkFormat`
table (`VK_FORMAT_R32_SFLOAT` … `VK_FORMAT_R32G32B32A32_SFLOAT`). Modelled
from the spec ("the shader's format expectation is overridden by the mesh
element's own format"); the table lives outside src/. -/
def VulkanMappings.getVkFormat : VertexElementType → Nat
  | .float1 => 100
  | .float2 => 103
  | .float3 => 106
  | .float4 => 109

/-- `VK_FORMAT_R32_UINT` — the format forced onto the draw-index attribute. -/
def VK_FORMAT_R32_UINT : Nat := 98

/-- `Ogre::VertexElement2` (the fields read by `getLayoutForPso`). -/
structure VertexElement2 where
  mSemantic : VertexElementSemantic
  mType : VertexElementType
  mInstancingStepRate : Nat
deriving DecidableEq

/-- `VkVertexInputRate`, including the `MAX_ENUM` sentinel the per-buffer
loop starts from. -/
inductive VkVertexInputRate
  | vertexRate
  | instanceRate
  | maxEnum
deriving DecidableEq

/-- `VkVertexInputBindingDescription`. -/
structure VkVertexInputBindingDescription where
  binding : Nat
  stride : Nat
  inputRate : VkVertexInputRate
deriving DecidableEq

/-- `std::lower_bound( mVertexInputs.begin(), mVertexInputs.end(),
locationIdx, SortByVertexInputLocation() )` on the sorted attribute list:
the first element whose location is not below `locationIdx`, or `none` for
the end iterator. -/
def lowerBoundByLocation (l : List VkVertexInputAttributeDescription)
    (loc : Nat) : Option VkVertexInputAttributeDescription :=
  (l.dropWhile fun a => a.location < loc).head?

/-- The source's `itor != mVertexInputs.end() && itor->location ==
locationIdx` test (lines 1063 and 1122): the shader input matched at this
location, if any. -/
def matchedShaderInput (l : List VkVertexInputAttributeDescription)
    (loc : Nat) : Option VkVertexInputAttributeDescription :=
  match lowerBoundByLocation l loc with
  | none => none
  | some a => if a.location = loc then some a else none

/-- The accumulator threaded across buffers in `getLayoutForPso`: `uvCount`,
`numShaderInputsFound`, `outVertexInputs`, `outBufferBindingDescs`. -/
structure PsoAcc where
  uvCount : Nat
  found : Nat
  outAttrs : List VkVertexInputAttributeDescription
  outBindings : List VkVertexInputBindingDescription
deriving DecidableEq

/-- The per-buffer locals of `getLayoutForPso`'s outer loop body:
`inputRate` (starting at `MAX_ENUM`) and `bindAccumOffset`. -/
structure BufAcc where
  inputRate : VkVertexInputRate
  bindAccumOffset : Nat
deriving DecidableEq

/-- One iteration of the inner `while( it != en )` loop of `getLayoutForPso`
(source lines 1052–1103): compute the location (texture coordinates consume
successive slots via `uvCount++`), binary-search the shader inputs, and on a
match run the step-rate and rate-mixing checks, emit the attribute with the
mesh element's format, the buffer index as binding and the running offset,
and bump the found count; matched or not, advance `bindAccumOffset` by the
element type's byte size. -/
def stepElem (name : String)
    (shaderInputs : List VkVertexInputAttributeDescription) (bufferIdx : Nat)
    (acc : PsoAcc × BufAcc) (e : VertexElement2) :
    Except PErr (PsoAcc × BufAcc) :=
  let locationIdx :=
    if e.mSemantic = .textureCoordinates then
      VulkanVaoManager.getAttributeIndexFor e.mSemantic + acc.1.uvCount
    else VulkanVaoManager.getAttributeIndexFor e.mSemantic
  let acc1 :=
    { acc.1 with
      uvCount :=
        if e.mSemantic = .textureCoordinates then acc.1.uvCount + 1
        else acc.1.uvCount }
  match matchedShaderInput shaderInputs locationIdx with
  | none =>
    .ok (acc1,
      { acc.2 with
        bindAccumOffset :=
          acc.2.bindAccumOffset + VertexElement.getTypeSize e.mType })
  | some attr =>
    if e.mInstancingStepRate > 1 then .error (.stepRateTooLarge name)
    else if acc.2.inputRate = .maxEnum then
      .ok ({ acc1 with
              found := acc1.found + 1
              outAttrs := acc1.outAttrs ++
                [{ attr with
                    format := VulkanMappings.getVkFormat e.mType
                    binding := bufferIdx
                    offset := acc.2.bindAccumOffset }] },
        { inputRate :=
            if e.mInstancingStepRate = 0 then VkVertexInputRate.vertexRate
            else VkVertexInputRate.instanceRate
          bindAccumOffset :=
            acc.2.bindAccumOffset + VertexElement.getTypeSize e.mType })
    else if (e.mInstancingStepRate = 0 ∧ acc.2.inputRate ≠ .vertexRate) ∨
        (e.mInstancingStepRate = 1 ∧ acc.2.inputRate ≠ .instanceRate) then
      .error (.mixedRates name)
    else
      .ok ({ acc1 with
              found := acc1.found + 1
              outAttrs := acc1.outAttrs ++
                [{ attr with
                    format := VulkanMappings.getVkFormat e.mType
                    binding := bufferIdx
                    offset := acc.2.bindAccumOffset }] },
        { acc.2 with
          bindAccumOffset :=
            acc.2.bindAccumOffset + VertexElement.getTypeSize e.mType })

/-- One iteration of the outer `for( bufferIdx … )` loop (source lines
1043–1114): walk the buffer's elements with `stepElem`, then append the
buffer's binding description exactly when its rate was fixed (the buffer is
actually used by the shader). -/
def processBuffer (name : String)
    (shaderInputs : List VkVertexInputAttributeDescription) (acc : PsoAcc)
    (be : Nat × List VertexElement2) : Except PErr PsoAcc :=
  match be.2.foldlM (stepElem name shaderInputs be.1)
      (acc, ({ inputRate := .maxEnum, bindAccumOffset := 0 } : BufAcc)) with
  | .error e => .error e
  | .ok r =>
    if r.2.inputRate = .maxEnum then .ok r.1
    else
      .ok { r.1 with
        outBindings := r.1.outBindings ++
          [{ binding := be.1, stride := r.2.bindAccumOffset,
             inputRate := r.2.inputRate }] }

/-- The draw-index special case (source lines 1116–1138): if the shader
declares an input at the reserved location 15, emit it with format
`VK_FORMAT_R32_UINT`, binding 15, offset 0, and a per-instance binding of
stride 4 at slot 15, bumping the found count. -/
def processDrawId (shaderInputs : List VkVertexInputAttributeDescription)
    (acc : PsoAcc) : PsoAcc :=
  match matchedShaderInput shaderInputs 15 with
  | none => acc
  | some attr =>
    { acc with
      found := acc.found + 1
      outAttrs := acc.outAttrs ++
        [{ attr with format := VK_FORMAT_R32_UINT, binding := 15, offset := 0 }]
      outBindings := acc.outBindings ++
        [{ binding := 15, stride := 4, inputRate := .instanceRate }] }

/-- `VulkanProgram::getLayoutForPso` (source lines 1026–1148): the found
count starts at `mNumSystemGenVertexInputs`, the buffers are walked in
order, the draw-index case runs, and if fewer shader inputs were matched
than declared the fatal missing-attribute error is raised; otherwise the
binding and attribute description lists are the outputs. -/
def VulkanProgram.getLayoutForPso (name : String)
    (shaderInputs : List VkVertexInputAttributeDescription)
    (numSystemGen : Nat) (vertexElements : List (List VertexElement2)) :
    Except PErr
      (List VkVertexInputBindingDescription ×
        List VkVertexInputAttributeDescription) :=
  match vertexElements.enum.foldlM (processBuffer name shaderInputs)
      ({ uvCount := 0, found := numSystemGen, outAttrs := [],
         outBindings := [] } : PsoAcc) with
  | .error e => .error e
  | .ok acc0 =>
    let acc := processDrawId shaderInputs acc0
    if acc.found < shaderInputs.length then .error .missingAttributes
    else .ok (acc.outBindings, acc.outAttrs)

/-! ## Theorems

Everything below is a statement about the definitions above; the claim
theorems carry their claim id in the doc comment. -/

/-! ### Claim C2: the binding-range invariant -/
/-- C2 (counterexample): the claim asserts `start ≤ end` "at all times",
including "immediately after construction/reset"; but a freshly constructed
cell has `start = 65535 > 0 = end`, so the claim is false at that concrete
state. -/
theorem descBindingRange_init_start_gt_end :
    VulkanDescBindingRange.init.end_ < VulkanDescBindingRange.init.start := by
  decide

/-- C2 (amended): an untouched cell reports the empty range with
`start = 65535` and `end = 0` (so `start > end` there, marking emptiness),
and after any `merge( idx )` with `idx < 65535` — which is what the parser
guarantees, since it rejects slot indices outside `[0, 65535)` — the cell
satisfies `start ≤ end`, whatever its previous contents. -/
theorem descBindingRange_merge_start_le_end :
    VulkanDescBindingRange.init.start = 65535 ∧ VulkanDescBindingRange.init.end_ = 0 ∧
      ∀ (r : VulkanDescBindingRange) (idx : Nat), idx < 65535 →
        (r.merge idx).start ≤ (r.merge idx).end_ := by
  refine ⟨rfl, rfl, fun r idx h => ?_⟩
  have hmod : (idx + 1) % 65536 = idx + 1 := Nat.mod_eq_of_lt (by omega)
  simp only [VulkanDescBindingRange.merge, hmod]
  omega

/-- C2 (witness): the amended theorem applied at the concrete cell obtained
by merging slot 3 into a fresh cell. -/
theorem descBindingRange_merge_start_le_end_witness :
    (VulkanDescBindingRange.init.merge 3).start ≤
      (VulkanDescBindingRange.init.merge 3).end_ :=
  descBindingRange_merge_start_le_end.2.2 VulkanDescBindingRange.init 3 (by decide)

/-! ### Character- and scan-level helper lemmas -/
theorem digitChar_props (n : Nat) :
    digitChar n ≠ '\n' ∧ digitChar n ≠ ',' ∧ digitChar n ≠ ')' ∧ digitChar n ≠ 'o' := by
  rcases n with _ | _ | _ | _ | _ | _ | _ | _ | _ | n
  · decide
  · decide
  · decide
  · decide
  · decide
  · decide
  · decide
  · decide
  · decide
  · exact (by decide : ('9' : Char) ≠ '\n' ∧ '9' ≠ ',' ∧ '9' ≠ ')' ∧ '9' ≠ 'o')

theorem typeLetter_props (c : Char) (h : c ∈ validTypeLetters) :
    c ≠ '\n' ∧ c ≠ ',' ∧ c ≠ ')' ∧ c ≠ 'o' ∧
      bufferTypes.indexOf c < NumDescBindingTypes ∧ c ≠ ' ' := by
  fin_cases h <;> decide

theorem atoi_digit_single (n : Nat) (h : n < 10) : atoi [digitChar n] = (n : Int) := by
  interval_cases n <;> rfl

theorem atoi_digit_stop (n : Nat) (h : n < 10) (r : List Char) :
    atoi (digitChar n :: ' ' :: r) = (n : Int) := by
  interval_cases n <;> rfl

theorem charFindAux_cons_ne (ch c : Char) (rest : List Char) (i : Nat) (h : c ≠ ch) :
    charFindAux ch (c :: rest) i = charFindAux ch rest (i + 1) := by
  simp [charFindAux, h]

theorem charFindAux_here (ch : Char) (rest : List Char) (i : Nat) :
    charFindAux ch (ch :: rest) i = some i := by
  simp [charFindAux]

theorem strFindAux_cons_ne (p : Char) (pr : List Char) (c : Char) (rest : List Char)
    (i : Nat) (h : p ≠ c) :
    strFindAux (p :: pr) (c :: rest) i = strFindAux (p :: pr) rest (i + 1) := by
  simp [strFindAux, listStartsWith, h]

theorem strFindAux_here (pat : List Char) (c : Char) (rest : List Char) (i : Nat)
    (h : listStartsWith pat (c :: rest) = true) :
    strFindAux pat (c :: rest) i = some i := by
  simp [strFindAux, h]

theorem strFindAux_shift (pat l : List Char) (i : Nat) :
    strFindAux pat l i = (strFindAux pat l 0).map (· + i) := by
  induction l generalizing i with
  | nil => rfl
  | cons c rest ih =>
    by_cases h : listStartsWith pat (c :: rest) = true
    · simp [strFindAux, h]
    · simp only [strFindAux, if_neg h, ih (0 + 1), ih (i + 1), Option.map_map]
      cases strFindAux pat rest 0 <;> simp <;> omega

theorem charFind_abs (s : List Char) (ch : Char) (i : Nat) (d : List Char) (m r : Nat)
    (hd : s.drop i = d) (haux : charFindAux ch d 0 = some m) (hr : r = m + i) :
    charFind s ch i = some r := by
  unfold charFind
  rw [hd, haux, hr]
  rfl

theorem strFind_abs (s pat : List Char) (i : Nat) (d : List Char) (m r : Nat)
    (hd : s.drop i = d) (haux : strFindAux pat d 0 = some m) (hr : r = m + i) :
    strFind s pat i = some r := by
  unfold strFind
  rw [hd, haux, hr]
  rfl

theorem drop_length_add (pre x : List α) (n : Nat) :
    (pre ++ x).drop (pre.length + n) = x.drop n := by
  induction pre with
  | nil => simp
  | cons a as ih => simpa [Nat.succ_add] using ih

theorem parseLoop_eval (pre : List Char) (a : OgreSetAnnotation) (tail : List Char)
    (tbl : DescBindingTable) (fuel : Nat)
    (h10 : a.setIdx < 10) (hslot : a.slotIdx < 10) (hlet : a.typeLetter ∈ validTypeLetters) :
    parseLoop (pre ++ renderAnno a ++ tail) (fuel + 1) tbl (some pre.length) =
      if a.setIdx < OGRE_VULKAN_MAX_NUM_BOUND_DESCRIPTOR_SETS then
        parseLoop (pre ++ renderAnno a ++ tail) fuel (applyAnno tbl a)
          (strFind (pre ++ renderAnno a ++ tail) c_ogreSetKeyword (pre.length + 20))
      else ⟨tbl, true⟩ := by
  obtain ⟨hs1, hs2, hs3, hs4⟩ := digitChar_props a.setIdx
  obtain ⟨hb1, hb2, hb3, hb4⟩ := digitChar_props a.slotIdx
  obtain ⟨hl1, hl2, hl3, hl4, hl5, hl6⟩ := typeLetter_props _ hlet
  have hdrop8 : (pre ++ renderAnno a ++ tail).drop (pre.length + 8) =
      digitChar a.setIdx :: ',' :: ' ' :: 'o' :: 'g' :: 'r' :: 'e' :: '_' ::
        a.typeLetter :: digitChar a.slotIdx :: ' ' :: ')' :: '\n' :: tail := by
    rw [List.append_assoc, drop_length_add]
    rfl
  have heol : charFind (pre ++ renderAnno a ++ tail) '\n' (pre.length + 8) =
      some (pre.length + 20) := by
    refine charFind_abs _ _ _ _ 12 _ hdrop8 ?_ (by omega)
    rw [charFindAux_cons_ne _ _ _ _ hs1, charFindAux_cons_ne _ _ _ _ (by decide),
        charFindAux_cons_ne _ _ _ _ (by decide), charFindAux_cons_ne _ _ _ _ (by decide),
        charFindAux_cons_ne _ _ _ _ (by decide), charFindAux_cons_ne _ _ _ _ (by decide),
        charFindAux_cons_ne _ _ _ _ (by decide), charFindAux_cons_ne _ _ _ _ (by decide),
        charFindAux_cons_ne _ _ _ _ hl1, charFindAux_cons_ne _ _ _ _ hb1,
        charFindAux_cons_ne _ _ _ _ (by decide), charFindAux_cons_ne _ _ _ _ (by decide),
        charFindAux_here]
  have hcomma : charFind (pre ++ renderAnno a ++ tail) ',' (pre.length + 8) =
      some (pre.length + 9) := by
    refine charFind_abs _ _ _ _ 1 _ hdrop8 ?_ (by omega)
    rw [charFindAux_cons_ne _ _ _ _ hs2, charFindAux_here]
  have hparen : charFind (pre ++ renderAnno a ++ tail) ')' (pre.length + 8) =
      some (pre.length + 19) := by
    refine charFind_abs _ _ _ _ 11 _ hdrop8 ?_ (by omega)
    rw [charFindAux_cons_ne _ _ _ _ hs3, charFindAux_cons_ne _ _ _ _ (by decide),
        charFindAux_cons_ne _ _ _ _ (by decide), charFindAux_cons_ne _ _ _ _ (by decide),
        charFindAux_cons_ne _ _ _ _ (by decide), charFindAux_cons_ne _ _ _ _ (by decide),
        charFindAux_cons_ne _ _ _ _ (by decide), charFindAux_cons_ne _ _ _ _ (by decide),
        charFindAux_cons_ne _ _ _ _ hl3, charFindAux_cons_ne _ _ _ _ hb3,
        charFindAux_cons_ne _ _ _ _ (by decide), charFindAux_here]
  rw [parseLoop]
  simp only [show c_ogreSetKeyword.length = 8 from rfl, show c_ogreTypeKeyword.length = 5 from rfl]
  rw [heol, hcomma, hparen]
  simp only [minOpt]
  rw [show (pre.length + 9) ⊓ (pre.length + 19) = pre.length + 9 from inf_eq_left.mpr (by omega)]
  rw [decide_eq_false (by omega : ¬(pre.length + 20 ≤ pre.length + 9))]
  rw [if_neg (Bool.false_ne_true)]
  rw [show pre.length + 9 - (pre.length + 8) = 1 from by omega]
  have hsub1 : substrL (pre ++ renderAnno a ++ tail) (pre.length + 8) 1 =
      [digitChar a.setIdx] := by
    simp only [substrL, hdrop8]
    rfl
  rw [hsub1, atoi_digit_single _ h10]
  rw [show pre.length + 20 - (pre.length + 8) = 12 from by omega]
  have hline : substrL (pre ++ renderAnno a ++ tail) (pre.length + 8) 12 =
      [digitChar a.setIdx, ',', ' ', 'o', 'g', 'r', 'e', '_',
        a.typeLetter, digitChar a.slotIdx, ' ', ')'] := by
    simp only [substrL, hdrop8]
    rfl
  rw [hline]
  have htype : strFind
      [digitChar a.setIdx, ',', ' ', 'o', 'g', 'r', 'e', '_',
        a.typeLetter, digitChar a.slotIdx, ' ', ')'] c_ogreTypeKeyword 0 = some 3 := by
    refine strFind_abs _ _ _ _ 3 _ rfl ?_ (by omega)
    show strFindAux ('o' :: 'g' :: 'r' :: 'e' :: '_' :: [])
        (digitChar a.setIdx :: ',' :: ' ' :: 'o' :: 'g' :: 'r' :: 'e' :: '_' ::
          a.typeLetter :: digitChar a.slotIdx :: ' ' :: ')' :: []) 0 = some 3
    rw [strFindAux_cons_ne _ _ _ _ _ (Ne.symm hs4), strFindAux_cons_ne _ _ _ _ _ (by decide),
        strFindAux_cons_ne _ _ _ _ _ (by decide)]
    rfl
  simp only [htype]
  rw [show ([digitChar a.setIdx, ',', ' ', 'o', 'g', 'r', 'e', '_',
        a.typeLetter, digitChar a.slotIdx, ' ', ')'] : List Char).length = 12 from rfl]
  rw [if_neg (by omega : ¬(12 - 1 ≤ 3 + 5))]
  rw [show ([digitChar a.setIdx, ',', ' ', 'o', 'g', 'r', 'e', '_',
        a.typeLetter, digitChar a.slotIdx, ' ', ')'] : List Char).getD (3 + 5) ' ' =
      a.typeLetter from rfl]
  rw [if_neg (by simp only [not_or, not_le]; exact ⟨hl5, hl6⟩ :
        ¬(NumDescBindingTypes ≤ List.indexOf a.typeLetter bufferTypes ∨ a.typeLetter = ' '))]
  rw [show ([digitChar a.setIdx, ',', ' ', 'o', 'g', 'r', 'e', '_',
        a.typeLetter, digitChar a.slotIdx, ' ', ')'] : List Char).drop (3 + 5 + 1) =
      [digitChar a.slotIdx, ' ', ')'] from rfl]
  rw [atoi_digit_stop _ hslot]
  rw [if_neg (by omega : ¬((a.slotIdx : Int) < 0 ∨ (65535 : Int) ≤ (a.slotIdx : Int)))]
  rw [Int.toNat_natCast, Int.toNat_natCast]
  rcases Nat.lt_or_ge a.setIdx OGRE_VULKAN_MAX_NUM_BOUND_DESCRIPTOR_SETS with hset | hset
  · rw [if_neg (by simp only [OGRE_VULKAN_MAX_NUM_BOUND_DESCRIPTOR_SETS] at hset ⊢; omega :
          ¬((a.setIdx : Int) < 0 ∨
            (OGRE_VULKAN_MAX_NUM_BOUND_DESCRIPTOR_SETS : Int) ≤ (a.setIdx : Int))),
        if_pos hset]
    rfl
  · rw [if_pos (by simp only [OGRE_VULKAN_MAX_NUM_BOUND_DESCRIPTOR_SETS] at hset ⊢; omega :
          (a.setIdx : Int) < 0 ∨
            (OGRE_VULKAN_MAX_NUM_BOUND_DESCRIPTOR_SETS : Int) ≤ (a.setIdx : Int)),
        if_neg (Nat.not_lt.mpr hset)]

theorem strFindAux_startsFalse (pat : List Char) (c : Char) (rest : List Char) (i : Nat)
    (h : listStartsWith pat (c :: rest) = false) :
    strFindAux pat (c :: rest) i = strFindAux pat rest (i + 1) := by
  simp [strFindAux, h]

theorem renderAnnos_cons (a : OgreSetAnnotation) (l : List OgreSetAnnotation) :
    renderAnnos (a :: l) = renderAnno a ++ renderAnnos l := rfl

theorem renderAnnos_length (l : List OgreSetAnnotation) :
    (renderAnnos l).length = 21 * l.length := by
  induction l with
  | nil => rfl
  | cons a r ih =>
    rw [renderAnnos_cons, List.length_append, show (renderAnno a).length = 21 from rfl, ih,
      List.length_cons]
    ring

theorem strFindAux_renderAnnos (b : OgreSetAnnotation) (l : List OgreSetAnnotation) :
    strFindAux c_ogreSetKeyword (renderAnnos (b :: l)) 0 = some 0 := rfl

theorem strFind_next (pre : List Char) (a : OgreSetAnnotation) (tail : List Char) :
    strFind (pre ++ renderAnno a ++ tail) c_ogreSetKeyword (pre.length + 20) =
      (strFindAux c_ogreSetKeyword tail 0).map (· + (pre.length + 21)) := by
  have hdrop20 : (pre ++ renderAnno a ++ tail).drop (pre.length + 20) = '\n' :: tail := by
    rw [List.append_assoc, drop_length_add]
    rfl
  unfold strFind
  rw [hdrop20,
    strFindAux_startsFalse _ _ _ _
      (by rfl : listStartsWith c_ogreSetKeyword ('\n' :: tail) = false),
    strFindAux_shift _ _ (0 + 1), Option.map_map]
  cases strFindAux c_ogreSetKeyword tail 0 with
  | none => rfl
  | some v =>
    show some (v + (0 + 1) + (pre.length + 20)) = some (v + (pre.length + 21))
    congr 1
    omega

theorem parseLoop_render (good : List OgreSetAnnotation) (bad : OgreSetAnnotation)
    (rest : List OgreSetAnnotation) :
    ∀ (pre : List Char) (tbl : DescBindingTable) (fuel : Nat),
      good.length + 1 ≤ fuel →
      (∀ x ∈ good, x.setIdx < OGRE_VULKAN_MAX_NUM_BOUND_DESCRIPTOR_SETS ∧ x.setIdx < 10 ∧
        x.slotIdx < 10 ∧ x.typeLetter ∈ validTypeLetters) →
      OGRE_VULKAN_MAX_NUM_BOUND_DESCRIPTOR_SETS ≤ bad.setIdx → bad.setIdx < 10 →
      bad.slotIdx < 10 → bad.typeLetter ∈ validTypeLetters →
      parseLoop (pre ++ renderAnnos (good ++ bad :: rest)) fuel tbl (some pre.length) =
        ⟨good.foldl applyAnno tbl, true⟩ := by
  induction good with
  | nil =>
    intro pre tbl fuel hfuel hgood hbad hbad10 hbadslot hbadlet
    obtain ⟨f, rfl⟩ : ∃ f, fuel = f + 1 := ⟨fuel - 1, by omega⟩
    rw [show (([] : List OgreSetAnnotation) ++ bad :: rest) = bad :: rest from rfl,
      renderAnnos_cons,
      show pre ++ (renderAnno bad ++ renderAnnos rest) =
        pre ++ renderAnno bad ++ renderAnnos rest from (List.append_assoc _ _ _).symm,
      parseLoop_eval pre bad (renderAnnos rest) tbl f hbad10 hbadslot hbadlet,
      if_neg (Nat.not_lt.mpr hbad)]
    rfl
  | cons a good' ih =>
    intro pre tbl fuel hfuel hgood hbad hbad10 hbadslot hbadlet
    obtain ⟨f, rfl⟩ : ∃ f, fuel = f + 1 := ⟨fuel - 1, by omega⟩
    obtain ⟨ha4, ha10, haslot, halet⟩ := hgood a (by simp)
    rw [show ((a :: good') ++ bad :: rest) = a :: (good' ++ bad :: rest) from rfl,
      renderAnnos_cons,
      show pre ++ (renderAnno a ++ renderAnnos (good' ++ bad :: rest)) =
        pre ++ renderAnno a ++ renderAnnos (good' ++ bad :: rest) from
        (List.append_assoc _ _ _).symm,
      parseLoop_eval pre a _ tbl f ha10 haslot halet, if_pos ha4, strFind_next]
    obtain ⟨c, l', hc⟩ : ∃ c l', good' ++ bad :: rest = c :: l' := by
      cases good' with
      | nil => exact ⟨bad, rest, rfl⟩
      | cons x xs => exact ⟨x, xs ++ bad :: rest, rfl⟩
    rw [hc, strFindAux_renderAnnos,
      show Option.map (· + (pre.length + 21)) (some 0) = some (0 + (pre.length + 21)) from rfl,
      show (0 + (pre.length + 21)) = (pre ++ renderAnno a).length from by
        rw [List.length_append, show (renderAnno a).length = 21 from rfl]; omega]
    rw [show (a :: good').foldl applyAnno tbl = good'.foldl applyAnno (applyAnno tbl a) from rfl]
    rw [← hc]
    exact ih (pre ++ renderAnno a) (applyAnno tbl a) f
      (by simp only [List.length_cons] at hfuel; omega)
      (fun x hx => hgood x (by simp [hx])) hbad hbad10 hbadslot hbadlet

/-- C7: for every source text consisting of rendered binding annotations in
which some annotation names a set index `≥` the maximum supported set count
(with all annotations before it valid), `parseNumBindingsFromSource` sets the
compile-error flag and stops parsing at exactly that annotation: the returned
table contains precisely the merges of the annotations strictly before the
out-of-range one, and nothing after it is processed.  (With the failing
annotation first — the spec's `ogre_set8` example — the table is left
entirely empty.) -/
theorem parse_stops_at_out_of_range_set (good : List OgreSetAnnotation)
    (bad : OgreSetAnnotation) (rest : List OgreSetAnnotation)
    (hgood : ∀ x ∈ good, x.setIdx < OGRE_VULKAN_MAX_NUM_BOUND_DESCRIPTOR_SETS ∧
      x.setIdx < 10 ∧ x.slotIdx < 10 ∧ x.typeLetter ∈ validTypeLetters)
    (hbad : OGRE_VULKAN_MAX_NUM_BOUND_DESCRIPTOR_SETS ≤ bad.setIdx) (hbad10 : bad.setIdx < 10)
    (hbadslot : bad.slotIdx < 10) (hbadlet : bad.typeLetter ∈ validTypeLetters) :
    VulkanProgram.parseNumBindingsFromSource (renderAnnos (good ++ bad :: rest)) =
      ⟨good.foldl applyAnno initDescBindingTable, true⟩ := by
  unfold VulkanProgram.parseNumBindingsFromSource
  obtain ⟨c, l', hc⟩ : ∃ c l', good ++ bad :: rest = c :: l' := by
    cases good with
    | nil => exact ⟨bad, rest, rfl⟩
    | cons x xs => exact ⟨x, xs ++ bad :: rest, rfl⟩
  have h0 : strFind (renderAnnos (good ++ bad :: rest)) c_ogreSetKeyword 0 = some 0 := by
    rw [hc]
    rfl
  rw [h0]
  have hfin := parseLoop_render good bad rest [] initDescBindingTable
    ((renderAnnos (good ++ bad :: rest)).length + 1)
    (by rw [renderAnnos_length, List.length_append, List.length_cons]; omega)
    hgood hbad hbad10 hbadslot hbadlet
  simpa using hfin

/-- C7 (witness): the spec's own example — a sole `ogre_set8` annotation with
maximum set count 4 fails the parse and leaves the table entirely empty. -/
theorem parse_stops_at_out_of_range_set_witness :
    VulkanProgram.parseNumBindingsFromSource (renderAnnos [⟨8, 'B', 0⟩]) =
      ⟨initDescBindingTable, true⟩ :=
  parse_stops_at_out_of_range_set [] ⟨8, 'B', 0⟩ [] (by simp) (by decide) (by decide)
    (by decide) (by decide)

/-! ### Claim C10: the early returns of `buildConstantDefinitions` -/
/-- C10: if the compile-error flag is set or the compiled SPIR-V word
sequence is empty, `buildConstantDefinitions` returns immediately with the
state unchanged — no constant definition is emitted, the logical→physical
maps and buffer sizes are untouched, and no error is raised. -/
theorem buildConstantDefinitions_early_return (o : Oracle) (env : ProgEnv)
    (st : MutState) (h : st.compileError = true ∨ st.spirv = []) :
    VulkanProgram.buildConstantDefinitions o env st = .ok st := by
  unfold VulkanProgram.buildConstantDefinitions
  rcases h with h | h
  · rw [if_pos h]
  · by_cases hc : st.compileError = true
    · rw [if_pos hc]
    · rw [if_neg hc, if_pos h]

/-- C10 (witness): a state with the compile-error flag set passes through
unchanged. -/
theorem buildConstantDefinitions_early_return_witness :
    VulkanProgram.buildConstantDefinitions
        ⟨fun _ _ => none, fun _ => .ok [], fun _ => .ok []⟩
        ⟨"prog", [], .vertexProgram, 256⟩ { compileError := true } =
      .ok { compileError := true } :=
  buildConstantDefinitions_early_return _ _ _ (Or.inl rfl)

/-! ### Claim C1: when the alignment padding accumulates -/
theorem placeDef_bindingParams (ps : ParamsState) (d : GpuConstantDefinition) :
    (ps.placeDef d).2.bindingParams = ps.bindingParams := by
  unfold ParamsState.placeDef
  split_ifs <;> rfl

theorem emitBlockMemberDef_bindingParams (p : Nat) (ps : ParamsState)
    (m : SpvReflectBlockVariable) (ct : GpuConstantType) :
    (emitBlockMemberDef p ps m ct).bindingParams = ps.bindingParams := by
  unfold emitBlockMemberDef
  split_ifs <;> exact placeDef_bindingParams _ _

theorem processBlockMember_bindingParams (p : Nat) (ps : ParamsState)
    (m : SpvReflectBlockVariable) (ps' : ParamsState)
    (h : processBlockMember p ps m = .ok ps') :
    ps'.bindingParams = ps.bindingParams := by
  unfold processBlockMember at h
  dsimp only at h
  split_ifs at h
  all_goals
    first
      | (injection h with h; rw [← h]; exact emitBlockMemberDef_bindingParams _ _ _ _)
      | (injection h with h; rw [← h])
      | (split at h <;>
          first
            | exact Except.noConfusion h
            | (injection h with h; rw [← h]; exact emitBlockMemberDef_bindingParams _ _ _ _))

theorem foldMembers_bindingParams (l : List SpvReflectBlockVariable) :
    ∀ (p : Nat) (ps ps' : ParamsState),
      l.foldlM (processBlockMember p) ps = .ok ps' →
      ps'.bindingParams = ps.bindingParams := by
  induction l with
  | nil =>
    intro p ps ps' h
    injection h with h
    rw [← h]
  | cons m l ih =>
    intro p ps ps' h
    rw [List.foldlM_cons] at h
    cases hm : processBlockMember p ps m with
    | error e => rw [hm] at h; exact Except.noConfusion h
    | ok ps1 =>
      rw [hm] at h
      exact (ih p ps1 ps' h).trans (processBlockMember_bindingParams p ps m ps1 hm)

/-- C1 (amended): in `buildConstantDefinitions`, for a uniform-buffer binding
at the reserved parameter slot, the alignment-padded accumulation
`prevSize += alignMemory(block size, minUniformBufferOffsetAlignment)`
happens exactly when the binding index is *not yet* present in
`mConstantDefsBindingParams` — i.e. only on the first sighting of a binding
index, never on a repeat sighting. -/
theorem uniformBinding_padding_on_first_sighting (uboAlignment : Nat)
    (b : SpvReflectDescriptorBinding) (prevSize : Nat) (ps : ParamsState)
    (r : Nat × ParamsState)
    (h : processUniformBufferBinding uboAlignment b prevSize ps = .ok r) :
    r.1 = if (ps.bindingParams.lookup b.binding).isSome then prevSize
          else prevSize + alignMemory b.block.size uboAlignment := by
  unfold processUniformBufferBinding at h
  cases hm : b.block.members.foldlM (processBlockMember prevSize) ps with
  | error e => rw [hm] at h; exact Except.noConfusion h
  | ok ps1 =>
    rw [hm] at h
    have hbp := foldMembers_bindingParams _ _ _ _ hm
    injection h with h
    rw [← h]
    cases hl : ps.bindingParams.lookup b.binding with
    | none => simp [hbp, hl]
    | some v => simp [hbp, hl]

/-- C1 (witness): the amended theorem applied to a concrete first-sighting
run — an empty binding-parameter map, block size 16, alignment 256. -/
theorem uniformBinding_padding_on_first_sighting_witness :
    ((256 : Nat), ({ bindingParams := [(0, ⟨0, 16⟩)] } : ParamsState)).1 =
      if ((({} : ParamsState)).bindingParams.lookup 0).isSome then 0
      else 0 + alignMemory 16 256 :=
  uniformBinding_padding_on_first_sighting 256
    ⟨0, .uniformBuffer, ⟨0, 16, []⟩, "b", "B", 0⟩ 0 {}
    (256, { bindingParams := [(0, ⟨0, 16⟩)] }) rfl

/-- C1 (counterexample): the claim says the accumulation happens only when
the binding index is encountered *again*, never on the first sighting; but on
a fresh state (no binding yet recorded — a first sighting) the running offset
advances from 0 to `alignMemory 16 256 = 256 ≠ 0`. -/
theorem uniformBinding_padding_first_sighting_counterexample :
    processUniformBufferBinding 256 ⟨0, .uniformBuffer, ⟨0, 16, []⟩, "b", "B", 0⟩ 0 {} =
      .ok (256, { bindingParams := [(0, ⟨0, 16⟩)] }) ∧ (256 : Nat) ≠ 0 :=
  ⟨rfl, by decide⟩

/-! ### Claims C8 and C4: module creation and recompilation idempotence -/
theorem gatherVertexInputs_preserves (vars : List SpvReflectInterfaceVariable)
    (st : MutState) :
    (VulkanProgram.gatherVertexInputs vars st).shaderModule = st.shaderModule ∧
    (VulkanProgram.gatherVertexInputs vars st).compiled = st.compiled ∧
    (VulkanProgram.gatherVertexInputs vars st).spirv = st.spirv := by
  unfold VulkanProgram.gatherVertexInputs
  split_ifs <;> exact ⟨rfl, rfl, rfl⟩

/-- C8 (amended): in `compile`, a GPU shader module is created exactly when
compilation fully succeeded *and* the SPIR-V word sequence is non-empty; a
compilation whose SPIR-V result has zero length produces no module — but the
return value of `compile` is the `mCompiled` flag, which does not depend on
the SPIR-V length, so such a compilation is still reported as a success. -/
theorem compile_module_iff_compiled_and_nonempty (o : Oracle) (env : ProgEnv)
    (checkErrors : Bool) (st : MutState) (b : Bool) (st' : MutState)
    (hmod : st.shaderModule = none)
    (h : VulkanProgram.compile o env checkErrors st = .ok (b, st')) :
    (st'.shaderModule ≠ none ↔ (st'.compiled = true ∧ st'.spirv ≠ [])) ∧
      b = st'.compiled := by
  unfold VulkanProgram.compile at h
  dsimp only at h
  split_ifs at h
  all_goals try (revert h; split <;> intro h)
  all_goals
    first
      | exact Except.noConfusion h
      | (injection h with h
         obtain ⟨hb, hst⟩ := Prod.mk.inj h
         subst hb
         rw [← hst]
         first
           | (rw [(gatherVertexInputs_preserves _ _).1, (gatherVertexInputs_preserves _ _).2.1,
                (gatherVertexInputs_preserves _ _).2.2]
              simp_all [List.isEmpty_iff])
           | simp_all [List.isEmpty_iff])

/-- C8 (witness): the amended theorem applied to a successful compilation
with non-empty SPIR-V (`[7]`), where the module is created. -/
theorem compile_module_iff_compiled_and_nonempty_witness :
    ((({ compiled := true, spirv := [7], shaderModule := some [7] } : MutState)).shaderModule
        ≠ none ↔
      (({ compiled := true, spirv := [7], shaderModule := some [7] } : MutState)).compiled
          = true ∧
        (({ compiled := true, spirv := [7], shaderModule := some [7] } : MutState)).spirv
          ≠ []) ∧
      true = (({ compiled := true, spirv := [7], shaderModule := some [7] } : MutState)).compiled :=
  compile_module_iff_compiled_and_nonempty
    ⟨fun _ _ => some [7], fun _ => .ok [], fun _ => .ok []⟩
    ⟨"prog", [], .vertexProgram, 256⟩ false {} true
    { compiled := true, spirv := [7], shaderModule := some [7] } rfl rfl

/-- C8 (counterexample): the claim says a zero-length SPIR-V result "is a
failure (compile reports failure for it)"; but when the (external) lowering
step yields an empty word sequence with no compile error, `compile` creates no
module yet *returns true* — success is reported. -/
theorem compile_empty_spirv_reports_success :
    VulkanProgram.compile ⟨fun _ _ => some [], fun _ => .ok [], fun _ => .ok []⟩
        ⟨"prog", [], .vertexProgram, 256⟩ true {} =
      .ok (true, { compiled := true }) := rfl

theorem clearDerivedState_const (st st' : MutState) :
    clearDerivedState (VulkanProgram.unloadHighLevelImpl st) =
      clearDerivedState (VulkanProgram.unloadHighLevelImpl st') := rfl

/-- C4: recompiling (and re-reflecting) the same unchanged source twice
produces identical results both times — the same SPIR-V word sequence, the
same constant-definition list (the sorted list carries name-order, semantic
types, logical and physical offsets; the name map carries the names), and the
same vertex-input list.  The reload path clears all derived state first
(`unloadHighLevelImpl` from the source plus the spec-modelled base-class
clearing), after which the outcome is a function of the unchanged source and
the deterministic external toolchain only — in fact the whole resulting
states coincide. -/
theorem reload_idempotent (o : Oracle) (env : ProgEnv) (st st₁ st₂ : MutState)
    (h1 : VulkanProgram.reload o env st = .ok st₁)
    (h2 : VulkanProgram.reload o env st₁ = .ok st₂) :
    st₂.spirv = st₁.spirv ∧
      st₂.params.constantDefsSorted = st₁.params.constantDefsSorted ∧
      st₂.params.constantDefsMap = st₁.params.constantDefsMap ∧
      st₂.vertexInputs = st₁.vertexInputs := by
  have hsame : VulkanProgram.reload o env st₁ = VulkanProgram.reload o env st := by
    unfold VulkanProgram.reload
    rw [clearDerivedState_const st₁ st]
  rw [hsame, h1] at h2
  injection h2 with h2
  rw [← h2]
  exact ⟨rfl, rfl, rfl, rfl⟩

/-- C4 (witness): a concrete double reload with a toolchain producing SPIR-V
`[7]` and empty reflection data. -/
theorem reload_idempotent_witness :
    (({ compiled := true, spirv := [7], shaderModule := some [7] } : MutState)).spirv =
        (({ compiled := true, spirv := [7], shaderModule := some [7] } : MutState)).spirv ∧
      (({ compiled := true, spirv := [7], shaderModule := some [7] } :
          MutState)).params.constantDefsSorted =
        (({ compiled := true, spirv := [7], shaderModule := some [7] } :
          MutState)).params.constantDefsSorted ∧
      (({ compiled := true, spirv := [7], shaderModule := some [7] } :
          MutState)).params.constantDefsMap =
        (({ compiled := true, spirv := [7], shaderModule := some [7] } :
          MutState)).params.constantDefsMap ∧
      (({ compiled := true, spirv := [7], shaderModule := some [7] } : MutState)).vertexInputs =
        (({ compiled := true, spirv := [7], shaderModule := some [7] } : MutState)).vertexInputs :=
  reload_idempotent ⟨fun _ _ => some [7], fun _ => .ok [], fun _ => .ok []⟩
    ⟨"p", [], .vertexProgram, 256⟩ {}
    { compiled := true, spirv := [7], shaderModule := some [7] }
    { compiled := true, spirv := [7], shaderModule := some [7] } rfl rfl

theorem placeDef_fst (ps : ParamsState) (d : GpuConstantDefinition) :
    (ps.placeDef d).1 = { d with physicalIndex := catSize ps (defCategory d.constType) } := by
  unfold ParamsState.placeDef defCategory catSize
  split_ifs <;> first | rfl | omega | contradiction

theorem placeDef_snd_catSize (ps : ParamsState) (d : GpuConstantDefinition) :
    catSize (ps.placeDef d).2 (defCategory d.constType) =
      catSize ps (defCategory d.constType) + d.arraySize * d.elementSize := by
  unfold ParamsState.placeDef defCategory catSize
  split_ifs <;> first | rfl | omega | contradiction

theorem placeDef_mono (ps : ParamsState) (d : GpuConstantDefinition) (c : Nat) :
    catSize ps c ≤ catSize (ps.placeDef d).2 c := by
  unfold ParamsState.placeDef catSize
  split_ifs
  all_goals first | rfl | contradiction | exact Nat.le_add_right _ _

theorem placeDef_sorted (ps : ParamsState) (d : GpuConstantDefinition) :
    (ps.placeDef d).2.constantDefsSorted = ps.constantDefsSorted := by
  unfold ParamsState.placeDef
  split_ifs <;> rfl

/-- The state after `placeDef` followed by arbitrary updates to the fields
`BufSep` does not mention still satisfies the invariant, with the freshly
placed definition appended. -/
theorem BufSep_append_place (ps : ParamsState) (d0 : GpuConstantDefinition)
    (ps' : ParamsState) (hsep : BufSep ps)
    (hsorted : ps'.constantDefsSorted = ps.constantDefsSorted ++ [(ps.placeDef d0).1])
    (hsz : ∀ c, catSize ps' c = catSize (ps.placeDef d0).2 c) :
    BufSep ps' := by
  have hfst := placeDef_fst ps d0
  constructor
  · intro d hd
    rw [hsorted] at hd
    rcases List.mem_append.mp hd with hd | hd
    · calc defEnd d ≤ catSize ps (defCategory d.constType) := hsep.1 d hd
        _ ≤ catSize (ps.placeDef d0).2 (defCategory d.constType) := placeDef_mono ps d0 _
        _ = catSize ps' (defCategory d.constType) := (hsz _).symm
    · rw [List.mem_singleton] at hd
      subst hd
      rw [hsz, hfst]
      show catSize ps (defCategory d0.constType) + d0.arraySize * d0.elementSize ≤ _
      rw [show ({ d0 with physicalIndex := catSize ps (defCategory d0.constType) } :
          GpuConstantDefinition).constType = d0.constType from rfl, placeDef_snd_catSize]
  · rw [hsorted]
    rw [List.pairwise_append]
    refine ⟨hsep.2, List.pairwise_singleton _ _, ?_⟩
    intro a ha b hb
    rw [List.mem_singleton] at hb
    subst hb
    intro hcat
    rw [hfst] at hcat ⊢
    have hcat' : defCategory a.constType = defCategory d0.constType := hcat
    have hend : defEnd a ≤ catSize ps (defCategory d0.constType) := by
      rw [← hcat']
      exact hsep.1 a ha
    constructor
    · show a.physicalIndex ≤ catSize ps (defCategory d0.constType)
      unfold defEnd at hend
      omega
    · exact hend

theorem emitBlockMemberDef_spec (p : Nat) (ps : ParamsState)
    (m : SpvReflectBlockVariable) (ct : GpuConstantType) :
    ∃ d0 : GpuConstantDefinition,
      (emitBlockMemberDef p ps m ct).constantDefsSorted =
          ps.constantDefsSorted ++ [(ps.placeDef d0).1] ∧
        ∀ c, catSize (emitBlockMemberDef p ps m ct) c = catSize (ps.placeDef d0).2 c := by
  refine ⟨⟨ct, p, 0,
    if m.typeDescription.flagArray then m.arrayStride / 4
    else GpuConstantDefinition.getElementSize ct false,
    if m.typeDescription.flagArray then m.arrayDimsCount else 1,
    GPV_GLOBAL⟩, ?_, ?_⟩
  · unfold emitBlockMemberDef
    dsimp only
    split_ifs
    all_goals
      show (ps.placeDef _).2.constantDefsSorted ++ [(ps.placeDef _).1] =
        ps.constantDefsSorted ++ [(ps.placeDef _).1]
    all_goals rw [placeDef_sorted]
  · intro c
    unfold emitBlockMemberDef catSize
    split_ifs <;> rfl

theorem BufSep_emit (p : Nat) (ps : ParamsState) (m : SpvReflectBlockVariable)
    (ct : GpuConstantType) (hsep : BufSep ps) :
    BufSep (emitBlockMemberDef p ps m ct) := by
  obtain ⟨d0, hsorted, hsz⟩ := emitBlockMemberDef_spec p ps m ct
  exact BufSep_append_place ps d0 _ hsep hsorted hsz

theorem BufSep_processBlockMember (p : Nat) (ps : ParamsState)
    (m : SpvReflectBlockVariable) (ps' : ParamsState)
    (h : processBlockMember p ps m = .ok ps') (hsep : BufSep ps) : BufSep ps' := by
  unfold processBlockMember at h
  dsimp only at h
  split_ifs at h
  all_goals
    first
      | (injection h with h; rw [← h]; exact BufSep_emit _ _ _ _ hsep)
      | (injection h with h; rw [← h]; exact hsep)
      | (split at h <;>
          first
            | exact Except.noConfusion h
            | (injection h with h; rw [← h]; exact BufSep_emit _ _ _ _ hsep))

theorem foldlM_except_preserve {σ α ε : Type _} (P : σ → Prop)
    (f : σ → α → Except ε σ)
    (hf : ∀ s a s', P s → f s a = .ok s' → P s') :
    ∀ (l : List α) (s s' : σ), P s → l.foldlM f s = .ok s' → P s' := by
  intro l
  induction l with
  | nil =>
    intro s s' hP h
    injection h with h
    rw [← h]
    exact hP
  | cons a l ih =>
    intro s s' hP h
    rw [List.foldlM_cons] at h
    cases hfa : f s a with
    | error e => rw [hfa] at h; exact Except.noConfusion h
    | ok s1 => rw [hfa] at h; exact ih s1 s' (hf s a s1 hP hfa) h

theorem BufSep_processUniformBufferBinding (al : Nat)
    (b : SpvReflectDescriptorBinding) (p : Nat) (ps : ParamsState)
    (r : Nat × ParamsState) (h : processUniformBufferBinding al b p ps = .ok r)
    (hsep : BufSep ps) : BufSep r.2 := by
  unfold processUniformBufferBinding at h
  cases hm : b.block.members.foldlM (processBlockMember p) ps with
  | error e => rw [hm] at h; exact Except.noConfusion h
  | ok ps1 =>
    rw [hm] at h
    injection h with h
    have h1 : BufSep ps1 :=
      foldlM_except_preserve BufSep _
        (fun s a s' hP hf => BufSep_processBlockMember p s a s' hf hP) _ _ _ hsep hm
    rw [← h]
    exact h1

theorem processNonBlockBinding_spec (b : SpvReflectDescriptorBinding) (p : Nat)
    (ps : ParamsState) :
    ∃ d0 : GpuConstantDefinition,
      (processNonBlockBinding b p ps).2.constantDefsSorted =
          ps.constantDefsSorted ++ [(ps.placeDef d0).1] ∧
        ∀ c, catSize (processNonBlockBinding b p ps).2 c = catSize (ps.placeDef d0).2 c := by
  unfold processNonBlockBinding
  dsimp only
  split_ifs
  all_goals
    first
      | exact ⟨⟨.sampler2D, p, 0, 1, 1, GPV_GLOBAL⟩, rfl, fun c => rfl⟩
      | exact ⟨⟨.sampler1D, p, 0, 1, 1, GPV_GLOBAL⟩, rfl, fun c => rfl⟩
      | exact ⟨⟨.unknown, p, 0, 1, 1, GPV_GLOBAL⟩, rfl, fun c => rfl⟩

theorem BufSep_processNonBlockBinding (b : SpvReflectDescriptorBinding) (p : Nat)
    (ps : ParamsState) (hsep : BufSep ps) :
    BufSep (processNonBlockBinding b p ps).2 := by
  obtain ⟨d0, hsorted, hsz⟩ := processNonBlockBinding_spec b p ps
  exact BufSep_append_place ps d0 _ hsep hsorted hsz

theorem BufSep_processBinding (al : Nat) (acc : Nat × ParamsState)
    (b : SpvReflectDescriptorBinding) (r : Nat × ParamsState)
    (h : processBinding al acc b = .ok r) (hsep : BufSep acc.2) : BufSep r.2 := by
  unfold processBinding at h
  split_ifs at h
  · injection h with h; rw [← h]; exact hsep
  · exact BufSep_processUniformBufferBinding al b acc.1 acc.2 r h hsep
  · injection h with h; rw [← h]; exact BufSep_processNonBlockBinding b acc.1 acc.2 hsep

theorem BufSep_processDescriptorSet (al : Nat) (ps : ParamsState)
    (s : SpvReflectDescriptorSet) (ps' : ParamsState)
    (h : processDescriptorSet al ps s = .ok ps') (hsep : BufSep ps) : BufSep ps' := by
  unfold processDescriptorSet at h
  cases hm : s.bindings.foldlM (processBinding al) (0, ps) with
  | error e => rw [hm] at h; exact Except.noConfusion h
  | ok acc =>
    rw [hm] at h
    injection h with h
    rw [← h]
    exact foldlM_except_preserve (fun a : Nat × ParamsState => BufSep a.2) _
      (fun s a s' hP hf => BufSep_processBinding al s a s' hf hP) _ _ _ hsep hm

/-- C3: within each of the three parameter buffers, every appended constant
definition's physical offset equals that buffer's running size before the
append, and the running size then advances by `arraySize * elementSize`
words (first conjunct, about the placement block shared by both emission
branches); consequently, for any reflection input, the definitions recorded
by `buildConstantDefinitions` (starting from an empty recorded list) are
pairwise ordered in discovery order within each buffer and their word ranges
`[physicalIndex, physicalIndex + arraySize*elementSize)` never overlap —
`defEnd a ≤ b.physicalIndex` for any earlier `a` and later `b` of the same
category (second conjunct). -/
theorem physical_buffers_placement_disjoint :
    (∀ (ps : ParamsState) (d : GpuConstantDefinition),
        (ps.placeDef d).1.physicalIndex = catSize ps (defCategory d.constType) ∧
          catSize (ps.placeDef d).2 (defCategory d.constType) =
            catSize ps (defCategory d.constType) + d.arraySize * d.elementSize) ∧
      ∀ (o : Oracle) (env : ProgEnv) (st st' : MutState),
        st.params.constantDefsSorted = [] →
        VulkanProgram.buildConstantDefinitions o env st = .ok st' →
        st'.params.constantDefsSorted.Pairwise (fun a b =>
          defCategory a.constType = defCategory b.constType →
            a.physicalIndex ≤ b.physicalIndex ∧ defEnd a ≤ b.physicalIndex) := by
  constructor
  · intro ps d
    refine ⟨?_, placeDef_snd_catSize ps d⟩
    rw [placeDef_fst]
  · intro o env st st' hempty h
    have hsep0 : BufSep st.params := by
      constructor
      · rw [hempty]
        intro d hd
        exact absurd hd (List.not_mem_nil d)
      · rw [hempty]
        exact List.Pairwise.nil
    unfold VulkanProgram.buildConstantDefinitions at h
    split_ifs at h
    · injection h with h
      rw [← h, hempty]
      exact List.Pairwise.nil
    · injection h with h
      rw [← h, hempty]
      exact List.Pairwise.nil
    · cases hr : o.reflectDescriptorSets st.spirv with
      | error msg => rw [hr] at h; exact Except.noConfusion h
      | ok sets =>
        rw [hr] at h
        dsimp only at h
        cases hf : sets.foldlM
            (processDescriptorSet env.minUniformBufferOffsetAlignment) st.params with
        | error e => rw [hf] at h; exact Except.noConfusion h
        | ok ps1 =>
          rw [hf] at h
          injection h with h
          have hsep1 : BufSep ps1 :=
            foldlM_except_preserve BufSep _
              (fun s a s' hP hfa => BufSep_processDescriptorSet _ s a s' hfa hP)
              _ _ _ hsep0 hf
          rw [← h]
          exact hsep1.2

/-- C3 (witness): the second conjunct applied to a concrete reflection run —
one uniform block at the parameter slot with a `vec4` and a `float` member,
yielding two float-buffer definitions at physical offsets 0 (size 4) and 4
(size 1), ordered and disjoint. -/
theorem physical_buffers_placement_disjoint_witness :
    ([⟨.float4, 0, 0, 4, 1, 1⟩, ⟨.float1, 0, 4, 1, 1, 1⟩] :
        List GpuConstantDefinition).Pairwise (fun a b =>
      defCategory a.constType = defCategory b.constType →
        a.physicalIndex ≤ b.physicalIndex ∧ defEnd a ≤ b.physicalIndex) :=
  physical_buffers_placement_disjoint.2
    ⟨fun _ _ => some [7],
      fun _ => .ok [⟨[⟨OGRE_VULKAN_PARAMETER_SLOT, .uniformBuffer, ⟨0, 32,
        [⟨"a", ⟨.typeVector, true, true, false, false, false, "v4"⟩, 0, 0, 4, 0, 0⟩,
          ⟨"b", ⟨.typeFloat, false, true, false, false, false, "f"⟩, 0, 0, 1, 0, 0⟩]⟩,
        "ubo", "U", 0⟩]⟩],
      fun _ => .ok []⟩
    ⟨"p", [], .vertexProgram, 256⟩
    { spirv := [7] }
    { spirv := [7],
      params :=
        { floatLogical := { bufferSize := 5, map := [(0, ⟨0, 4, 1⟩)] }
          floatBufferSize := 5
          constantDefsMap :=
            [("a", ⟨.float4, 0, 0, 4, 1, 1⟩), ("b", ⟨.float1, 0, 4, 1, 1, 1⟩)]
          constantDefsSorted := [⟨.float4, 0, 0, 4, 1, 1⟩, ⟨.float1, 0, 4, 1, 1, 1⟩]
          constantsBytesToWrite := 16
          bindingParams := [(0, ⟨0, 32⟩)] } }
    rfl rfl

set_option maxHeartbeats 1600000 in
theorem refineMatrixType_eq_of_spec_some (r c : Nat) (fb t : GpuConstantType)
    (h : specMatrixType r c = some t) : refineMatrixType r c fb = t := by
  unfold specMatrixType at h
  unfold refineMatrixType
  split_ifs at h ⊢
  all_goals first
    | exact Option.some.inj h
    | exact Option.noConfusion h

set_option maxHeartbeats 1600000 in
theorem refineMatrixType_eq_of_spec_none (r c : Nat) (fb : GpuConstantType)
    (h : specMatrixType r c = none) : refineMatrixType r c fb = fb := by
  unfold specMatrixType at h
  unfold refineMatrixType
  split_ifs at h ⊢
  all_goals first
    | rfl
    | exact Option.noConfusion h

theorem emitBlockMemberDef_appends (p : Nat) (ps : ParamsState)
    (m : SpvReflectBlockVariable) (ct : GpuConstantType) :
    ∃ d, (emitBlockMemberDef p ps m ct).constantDefsSorted =
        ps.constantDefsSorted ++ [d] ∧ d.constType = ct := by
  refine ⟨(ps.placeDef ⟨ct, p, 0,
    if m.typeDescription.flagArray then m.arrayStride / 4
    else GpuConstantDefinition.getElementSize ct false,
    if m.typeDescription.flagArray then m.arrayDimsCount else 1,
    GPV_GLOBAL⟩).1, ?_, ?_⟩
  · unfold emitBlockMemberDef
    dsimp only
    split_ifs
    all_goals
      show (ps.placeDef _).2.constantDefsSorted ++ [(ps.placeDef _).1] = _
    all_goals rw [placeDef_sorted]
  · rw [placeDef_fst]

theorem EmitsOne_of_emit (p : Nat) (ps : ParamsState) (m : SpvReflectBlockVariable)
    (ct : GpuConstantType)
    (h : processBlockMember p ps m = .ok (emitBlockMemberDef p ps m ct)) :
    EmitsOne p ps m ct := by
  obtain ⟨d, hs, hct⟩ := emitBlockMemberDef_appends p ps m ct
  exact ⟨_, d, h, hs, hct⟩

/-- C9 (amended): for every member of the parameter-slot uniform block,
`buildConstantDefinitions`' member loop selects the semantic type by shape —
matrices (members whose op-mapped type is the 4x4 marker) by (row count,
column count) among the nine shapes 2x2…4x4, keeping the 4x4 marker for
shapes outside that grid; vector-flagged float/int members by component
count 1–4, any other component count raising the fatal rendering-API error;
vector members that are neither float- nor int-flagged and members with no
vector/struct flag keep the op-mapped type; and each such member emits
exactly one constant definition — except struct-flagged members, which are
skipped and emit none. -/
theorem member_type_selection (p : Nat) (ps : ParamsState)
    (m : SpvReflectBlockVariable) :
    (VulkanMappings.get m.typeDescription.op = .matrix4x4 →
      (∀ t, specMatrixType m.matrixRowCount m.matrixColumnCount = some t →
          EmitsOne p ps m t) ∧
        (specMatrixType m.matrixRowCount m.matrixColumnCount = none →
          EmitsOne p ps m .matrix4x4)) ∧
    (VulkanMappings.get m.typeDescription.op ≠ .matrix4x4 →
      m.typeDescription.flagVector = true → m.typeDescription.flagFloat = true →
      (∀ t, specFloatVectorType m.vectorComponentCount = some t → EmitsOne p ps m t) ∧
        (specFloatVectorType m.vectorComponentCount = none →
          processBlockMember p ps m =
            .error (.invalidComponentCount "invalid component count for float vector"))) ∧
    (VulkanMappings.get m.typeDescription.op ≠ .matrix4x4 →
      m.typeDescription.flagVector = true → m.typeDescription.flagFloat = false →
      m.typeDescription.flagInt = true →
      (∀ t, specIntVectorType m.vectorComponentCount = some t → EmitsOne p ps m t) ∧
        (specIntVectorType m.vectorComponentCount = none →
          processBlockMember p ps m =
            .error (.invalidComponentCount "invalid component count for int vector"))) ∧
    (VulkanMappings.get m.typeDescription.op ≠ .matrix4x4 →
      m.typeDescription.flagVector = true → m.typeDescription.flagFloat = false →
      m.typeDescription.flagInt = false →
      EmitsOne p ps m (VulkanMappings.get m.typeDescription.op)) ∧
    (VulkanMappings.get m.typeDescription.op ≠ .matrix4x4 →
      m.typeDescription.flagVector = false → m.typeDescription.flagStruct = true →
      processBlockMember p ps m = .ok ps) ∧
    (VulkanMappings.get m.typeDescription.op ≠ .matrix4x4 →
      m.typeDescription.flagVector = false → m.typeDescription.flagStruct = false →
      EmitsOne p ps m (VulkanMappings.get m.typeDescription.op)) := by
  refine ⟨?_, ?_, ?_, ?_, ?_, ?_⟩
  · intro hop
    have hbody : processBlockMember p ps m = .ok (emitBlockMemberDef p ps m
        (refineMatrixType m.matrixRowCount m.matrixColumnCount
          (VulkanMappings.get m.typeDescription.op))) := by
      unfold processBlockMember
      dsimp only
      rw [if_pos hop]
    refine ⟨fun t ht => ?_, fun ht => ?_⟩
    · rw [refineMatrixType_eq_of_spec_some _ _ _ t ht] at hbody
      exact EmitsOne_of_emit _ _ _ _ hbody
    · rw [refineMatrixType_eq_of_spec_none _ _ _ ht, hop] at hbody
      exact EmitsOne_of_emit _ _ _ _ hbody
  · intro hop hvec hfl
    constructor
    · intro t ht
      unfold specFloatVectorType at ht
      split_ifs at ht with h1 h2 h3 h4 <;>
        first
          | exact Option.noConfusion ht
          | (obtain rfl := Option.some.inj ht
             apply EmitsOne_of_emit
             unfold processBlockMember
             dsimp only
             rw [if_neg hop, if_pos hvec, if_pos hfl]
             first
               | rw [h1]
               | rw [h2]
               | rw [h3]
               | rw [h4])
    · intro ht
      unfold specFloatVectorType at ht
      split_ifs at ht with h1 h2 h3 h4 <;> try exact Option.noConfusion ht
      unfold processBlockMember
      dsimp only
      rw [if_neg hop, if_pos hvec, if_pos hfl]
      rcases hcc : m.vectorComponentCount with _ | _ | _ | _ | _ | n
      · rfl
      · exact absurd hcc h1
      · exact absurd hcc h2
      · exact absurd hcc h3
      · exact absurd hcc h4
      · rfl
  · intro hop hvec hfl hint
    constructor
    · intro t ht
      unfold specIntVectorType at ht
      split_ifs at ht with h1 h2 h3 h4 <;>
        first
          | exact Option.noConfusion ht
          | (obtain rfl := Option.some.inj ht
             apply EmitsOne_of_emit
             unfold processBlockMember
             dsimp only
             rw [if_neg hop, if_pos hvec,
               if_neg (by rw [hfl]; exact Bool.false_ne_true), if_pos hint]
             first
               | rw [h1]
               | rw [h2]
               | rw [h3]
               | rw [h4])
    · intro ht
      unfold specIntVectorType at ht
      split_ifs at ht with h1 h2 h3 h4 <;> try exact Option.noConfusion ht
      unfold processBlockMember
      dsimp only
      rw [if_neg hop, if_pos hvec, if_neg (by rw [hfl]; exact Bool.false_ne_true),
        if_pos hint]
      rcases hcc : m.vectorComponentCount with _ | _ | _ | _ | _ | n
      · rfl
      · exact absurd hcc h1
      · exact absurd hcc h2
      · exact absurd hcc h3
      · exact absurd hcc h4
      · rfl
  · intro hop hvec hfl hint
    apply EmitsOne_of_emit
    unfold processBlockMember
    dsimp only
    rw [if_neg hop, if_pos hvec, if_neg (by rw [hfl]; exact Bool.false_ne_true),
      if_neg (by rw [hint]; exact Bool.false_ne_true)]
  · intro hop hvec hstruct
    unfold processBlockMember
    dsimp only
    rw [if_neg hop, if_neg (by rw [hvec]; exact Bool.false_ne_true), if_pos hstruct]
  · intro hop hvec hstruct
    apply EmitsOne_of_emit
    unfold processBlockMember
    dsimp only
    rw [if_neg hop, if_neg (by rw [hvec]; exact Bool.false_ne_true),
      if_neg (by rw [hstruct]; exact Bool.false_ne_true)]

/-- C9 (witness): the amended theorem applied to a concrete 4-component
float-vector member, which emits exactly one `float4` definition. -/
theorem member_type_selection_witness :
    EmitsOne 0 {}
      ⟨"a", ⟨.typeVector, true, true, false, false, false, "v4"⟩, 0, 0, 4, 0, 0⟩
      .float4 :=
  ((member_type_selection 0 {}
      ⟨"a", ⟨.typeVector, true, true, false, false, false, "v4"⟩, 0, 0, 4, 0, 0⟩).2.1
    (by decide) rfl rfl).1 .float4 rfl

/-- C9 (counterexample): the claim says exactly one constant definition is
emitted per member of the block; but a struct-typed member is skipped by the
`continue` at source lines 704–708 and emits none — the member run succeeds
with the state (so also the recorded definition list) unchanged. -/
theorem struct_member_emits_nothing :
    processBlockMember 0 {}
        ⟨"s", ⟨.typeStruct, false, false, false, true, false, "S"⟩, 0, 0, 0, 0, 0⟩ =
      .ok ({} : ParamsState) ∧ ({} : ParamsState).constantDefsSorted = [] :=
  ⟨rfl, rfl⟩

/-- C5: in `getLayoutForPso`, when the buffer walk succeeds, the fatal
missing-attribute error is raised exactly when the matched count (seeded
with the system-generated input count, bumped once per matched mesh element
and once for a declared draw-index input) is below the total number of
shader inputs; and a mesh element whose location matches no shader input
never causes an error — the walk just advances `uvCount` and the running
byte offset past it. -/
theorem missing_attributes_fatal (name : String)
    (inputs : List VkVertexInputAttributeDescription) (numSystemGen : Nat)
    (vertexElements : List (List VertexElement2)) :
    (∀ (bufferIdx : Nat) (acc : PsoAcc × BufAcc) (e : VertexElement2),
        matchedShaderInput inputs
            (if e.mSemantic = .textureCoordinates then
              VulkanVaoManager.getAttributeIndexFor e.mSemantic + acc.1.uvCount
            else VulkanVaoManager.getAttributeIndexFor e.mSemantic) = none →
        stepElem name inputs bufferIdx acc e =
          .ok ({ acc.1 with
                  uvCount :=
                    if e.mSemantic = .textureCoordinates then acc.1.uvCount + 1
                    else acc.1.uvCount },
            { acc.2 with
              bindAccumOffset :=
                acc.2.bindAccumOffset + VertexElement.getTypeSize e.mType })) ∧
    (∀ acc0,
        vertexElements.enum.foldlM (processBuffer name inputs)
            ({ uvCount := 0, found := numSystemGen, outAttrs := [],
               outBindings := [] } : PsoAcc) = .ok acc0 →
        (VulkanProgram.getLayoutForPso name inputs numSystemGen vertexElements =
            .error .missingAttributes ↔
          (processDrawId inputs acc0).found < inputs.length)) := by
  constructor
  · intro bufferIdx acc e h
    unfold stepElem
    dsimp only
    rw [h]
  · intro acc0 h
    unfold VulkanProgram.getLayoutForPso
    rw [h]
    dsimp only
    by_cases hlt : (processDrawId inputs acc0).found < inputs.length
    · rw [if_pos hlt]
      exact iff_of_true rfl hlt
    · rw [if_neg hlt]
      exact iff_of_false (fun hc => Except.noConfusion hc) hlt

/-- C5 (witness): the theorem applied to a concrete unmatched position
element (no shader inputs at all), and to a shader with one input at
location 3 against an empty mesh layout, where the matched count 0 falls
below the input count 1 and the error is raised. -/
theorem missing_attributes_fatal_witness :
    stepElem "p" [] 0
        (({ uvCount := 0, found := 0, outAttrs := [], outBindings := [] },
          { inputRate := .maxEnum, bindAccumOffset := 0 }) :
          PsoAcc × BufAcc) ⟨.position, .float3, 0⟩ =
      .ok ({ uvCount := 0, found := 0, outAttrs := [], outBindings := [] },
        { inputRate := .maxEnum, bindAccumOffset := 12 }) ∧
    (VulkanProgram.getLayoutForPso "p" [⟨3, 0, 0, 0⟩] 0 [] =
        .error .missingAttributes ↔
      (processDrawId [⟨3, 0, 0, 0⟩]
          { uvCount := 0, found := 0, outAttrs := [], outBindings := [] }).found <
        1) :=
  ⟨(missing_attributes_fatal "p" [] 0 []).1 0
      ({ uvCount := 0, found := 0, outAttrs := [], outBindings := [] },
        { inputRate := .maxEnum, bindAccumOffset := 0 })
      ⟨.position, .float3, 0⟩ rfl,
    (missing_attributes_fatal "p" [⟨3, 0, 0, 0⟩] 0 []).2
      { uvCount := 0, found := 0, outAttrs := [], outBindings := [] } rfl⟩

/-- C6 (counterexample): the claim says a step rate greater than 1 raises a
fatal error for any element of any buffer; but the check only runs for
elements matched to a shader input — here a step rate of 5 on an unmatched
position element passes silently and the call succeeds. -/
theorem step_rate_unchecked_on_unmatched :
    VulkanProgram.getLayoutForPso "prog" [] 0 [[⟨.position, .float3, 5⟩]] =
      .ok ([], []) := rfl

/-- C6 (amended): in `getLayoutForPso`, for every mesh element that IS
matched to a shader input: a step rate above 1 raises the fatal
step-rate error; if the buffer's rate is still the `MAX_ENUM` sentinel, the
element fixes it (rate 0 gives per-vertex, otherwise per-instance); and once
fixed, an element whose rate disagrees (rate 0 against a non-vertex buffer
rate, or rate 1 against a non-instance buffer rate) raises the fatal
rate-mixing error naming the program. Unmatched elements (see the
counterexample) undergo none of these checks. -/
theorem buffer_rate_mixing_fatal (name : String)
    (inputs : List VkVertexInputAttributeDescription) (bufferIdx : Nat)
    (acc : PsoAcc × BufAcc) (e : VertexElement2)
    (attr : VkVertexInputAttributeDescription)
    (hm : matchedShaderInput inputs
        (if e.mSemantic = .textureCoordinates then
          VulkanVaoManager.getAttributeIndexFor e.mSemantic + acc.1.uvCount
        else VulkanVaoManager.getAttributeIndexFor e.mSemantic) = some attr) :
    (e.mInstancingStepRate > 1 →
      stepElem name inputs bufferIdx acc e = .error (.stepRateTooLarge name)) ∧
    (e.mInstancingStepRate ≤ 1 → acc.2.inputRate = .maxEnum →
      ∃ a, stepElem name inputs bufferIdx acc e = .ok a ∧
        a.2.inputRate =
          (if e.mInstancingStepRate = 0 then VkVertexInputRate.vertexRate
            else VkVertexInputRate.instanceRate)) ∧
    (acc.2.inputRate ≠ .maxEnum →
      (e.mInstancingStepRate = 0 ∧ acc.2.inputRate ≠ .vertexRate) ∨
        (e.mInstancingStepRate = 1 ∧ acc.2.inputRate ≠ .instanceRate) →
      stepElem name inputs bufferIdx acc e = .error (.mixedRates name)) := by
  refine ⟨fun h1 => ?_, fun h1 h2 => ?_, fun h2 h3 => ?_⟩
  · unfold stepElem
    dsimp only
    rw [hm]
    dsimp only
    rw [if_pos h1]
  · unfold stepElem
    dsimp only
    rw [hm]
    dsimp only
    rw [if_neg (show ¬e.mInstancingStepRate > 1 by omega), if_pos h2]
    exact ⟨_, rfl, rfl⟩
  · have h1 : ¬e.mInstancingStepRate > 1 := by
      rcases h3 with ⟨h, _⟩ | ⟨h, _⟩ <;> omega
    unfold stepElem
    dsimp only
    rw [hm]
    dsimp only
    rw [if_neg h1, if_neg h2, if_pos h3]

/-- C6 (witness): the amended theorem applied to a matched position element
of step rate 1 inside a buffer whose rate was already fixed to per-vertex —
the rate-mixing error fires. -/
theorem buffer_rate_mixing_fatal_witness :
    stepElem "p" [⟨0, 0, 0, 0⟩] 0
        (({ uvCount := 0, found := 0, outAttrs := [], outBindings := [] },
          { inputRate := .vertexRate, bindAccumOffset := 0 }) :
          PsoAcc × BufAcc) ⟨.position, .float3, 1⟩ =
      .error (.mixedRates "p") :=
  (buffer_rate_mixing_fatal "p" [⟨0, 0, 0, 0⟩] 0
      ({ uvCount := 0, found := 0, outAttrs := [], outBindings := [] },
        { inputRate := .vertexRate, bindAccumOffset := 0 })
      ⟨.position, .float3, 1⟩ ⟨0, 0, 0, 0⟩ rfl).2.2
    (by decide) (Or.inr ⟨rfl, by decide⟩)
